import Mathlib

/-!
Verification of the workload-analyzer external-API client subsystem.

This file is a shallow embedding, in Lean 4, of the pieces of the
`workload_analyzer` Python code base that the specification's claims are
about:

* `services/auth_service.py` — the credential provider (`AuthService`,
  `Credentials`, `get_iss_credentials`);
* `services/iss_client.py` — the remote API client (`ISSClient._request`,
  `_get_oauth_token`, `get_jobs`, `get_job`, `get_platforms`,
  `get_platform`, `get_instances`, `get_instance`);
* `services/file_service.py` — the file access client
  (`FileService._request`, `list_files`, `download_file`,
  `_get_artifact_type_for_job`);
* `models/job_models.py`, `models/platform_models.py` — the pydantic data
  models (embedded as explicit parsing functions over a JSON value type);
* `utils/response_summarizer.py` — the listing summarizer
  (`summarize_job`, `summarize_jobs_response`);
* `exceptions.py` — the exception taxonomy.  Crucially, `exceptions.py`
  defines most of the "distinct" error names as ALIASES of a handful of
  classes (`ISSNotFoundError = ISSClientError = ISSAPIException`,
  `FileNotFoundError = FileAccessError = FileServiceError =
  FileServiceException`, ...); the embedding's `ExcClass` type has one
  constructor per actual Python class, so aliasing is faithfully visible.

Modelling conventions:

* JSON documents are modelled by `JVal`, with numbers restricted to
  integers (the claims under study never involve fractional values).
* Asynchronous HTTP I/O is modelled by response oracles `Nat → HttpResult`
  indexed by the number of calls made so far; the state records the call
  counters and a trace of the outbound calls.
* Python exceptions are modelled as `Except Exc` results, where `Exc`
  carries the (post-aliasing) exception class and the message string.
* pydantic parsing/validation is embedded as explicit `parse` functions
  returning `Except PErr`; the `PErr.validation` constructor corresponds
  to `pydantic.ValidationError` (caught by `except ValidationError`
  handlers in the source) and `PErr.typeError` to other exceptions such
  as `TypeError`/`AttributeError` (not caught by those handlers).
  pydantic v1 scalar coercions (str/int/bool) are embedded; `datetime`
  fields are embedded as pass-through optional strings (no claim depends
  on date parsing).
-/

namespace WA

/-- JSON-ish values, as delivered by the remote APIs.  Numbers are
restricted to integers: the integer-valued sublanguage of JSON suffices
for every claim under study. -/
inductive JVal where
  | null
  | bool (b : Bool)
  | num (n : Int)
  | str (s : String)
  | arr (items : List JVal)
  | obj (fields : List (String × JVal))

/-- Python truthiness of a JSON value (`if value:`). -/
def pyTruthy : JVal → Bool
  | .null => false
  | .bool b => b
  | .num n => n != 0
  | .str s => !s.isEmpty
  | .arr items => !items.isEmpty
  | .obj fields => !fields.isEmpty

/-- Python truthiness of an optional string (None and "" are falsy). -/
def truthyStr : Option String → Bool
  | none => false
  | some s => !s.isEmpty

/-- Dictionary lookup (`d.get(k)` yielding `None` when absent is modelled
by the `Option`). Dictionaries are association lists with unique keys. -/
def getKey (o : List (String × JVal)) (k : String) : Option JVal :=
  List.lookup k o

/-- Field lookup as performed by pydantic v1 with
`allow_population_by_field_name = True`: the alias is consulted first,
then the field name. -/
def getField (o : List (String × JVal)) (aliasKey fieldName : String) : Option JVal :=
  match getKey o aliasKey with
  | some v => some v
  | none => getKey o fieldName

/-- Replace the value of a key in a dictionary, or append the binding
(Python `d[k] = v`). -/
def setKey (o : List (String × JVal)) (k : String) (v : JVal) : List (String × JVal) :=
  if (List.lookup k o).isSome then
    o.map (fun p => if p.1 = k then (k, v) else p)
  else
    o ++ [(k, v)]

/-- Remove a key from a dictionary (Python `d.pop(k)`). -/
def popKey (o : List (String × JVal)) (k : String) : List (String × JVal) :=
  o.filter (fun p => p.1 ≠ k)

/-- pydantic v1 coercion to `str`: strings pass through, numbers and
booleans are stringified, everything else is a validation failure. -/
def coerceStr : JVal → Option String
  | .str s => some s
  | .num n => some (toString n)
  | .bool b => some (if b then "True" else "False")
  | _ => none

/-- pydantic v1 coercion to `int`. -/
def coerceInt : JVal → Option Int
  | .num n => some n
  | .bool b => some (if b then 1 else 0)
  | .str s => s.toInt?
  | _ => none

/-- pydantic v1 coercion to `bool`. -/
def coerceBool : JVal → Option Bool
  | .bool b => some b
  | .num 0 => some false
  | .num 1 => some true
  | .str s =>
      if s ∈ ["1", "on", "t", "true", "y", "yes"] then some true
      else if s ∈ ["0", "off", "f", "false", "n", "no"] then some false
      else none
  | _ => none

/-- The Python exception classes that actually exist after the alias
block at the bottom of `exceptions.py`.  One constructor per class:
`ISSClientError`, `ISSNotFoundError` and `ISSServiceError` are all
`ISSAPIException`; `ISSAuthenticationError` and `AuthenticationError` are
`AuthenticationException`; `ISSRateLimitError` and `RateLimitError` are
`RateLimitException`; `FileServiceError`, `FileAccessError` and
`FileNotFoundError` are all `FileServiceException`; `ValidationError` is
`ValidationException`.  `pydanticValidation` stands for pydantic's own
`ValidationError` (a different class from the repository's alias), and
`generic` for a plain Python `Exception`. -/
inductive ExcClass where
  | issAPIException
  | authenticationException
  | rateLimitException
  | fileServiceException
  | validationException
  | configurationException
  | pydanticValidation
  | generic
deriving DecidableEq

/-- A raised Python exception: its (post-aliasing) class and message. -/
structure Exc where
  cls : ExcClass
  msg : String
deriving DecidableEq

/-- Outcome of a pydantic model construction `Model(**data)`:
`validation` is `pydantic.ValidationError` (caught by the source's
`except ValidationError` handlers), `typeError` is any other exception
raised while building the model (`TypeError` from `**` on a non-mapping,
`AttributeError` from `.get` on a non-dict, ...), which those handlers do
not catch. -/
inductive PErr where
  | validation (msg : String)
  | typeError (msg : String)
deriving DecidableEq

/-! ## Credentials and the credential provider (`services/auth_service.py`) -/

/-- The `Credentials` pydantic model.  Every field is `Optional[str] =
None` and the model declares NO validator: constructing it never checks
that an authentication method is populated. -/
structure Credentials where
  username : Option String := none
  password : Option String := none
  client_id : Option String := none
  client_secret : Option String := none
  api_key : Option String := none
  token : Option String := none
  expires_at : Option String := none
deriving DecidableEq

/-- Construction of a `Credentials` value (`Credentials(username=...,
...)`).  The model has no validators and all fields are optional
strings, so construction always succeeds. -/
def Credentials.construct (username password client_id client_secret
    api_key token expires_at : Option String) : Except Exc Credentials :=
  .ok ⟨username, password, client_id, client_secret, api_key, token, expires_at⟩

/-- Comparator taken from the specification's words, NOT from the code:
a `Credentials` value "has at least one authentication method populated —
either (username AND password) or (client_id AND client_secret)". -/
def hasAuthMethod (c : Credentials) : Bool :=
  (c.username.isSome && c.password.isSome) ||
  (c.client_id.isSome && c.client_secret.isSome)

/-- What the secret store (AWS Secrets Manager) yields for the one
configured secret: the call can raise (`unreachable`), the stored string
can fail to parse as JSON (`notJson`), or a JSON object is obtained. -/
inductive SecretFetch where
  | unreachable (msg : String)
  | notJson (msg : String)
  | json (data : List (String × JVal))

/-- State owned by `AuthService`: the in-memory credentials cache, the
backing store, and a counter of `get_secret_value` calls made (used to
observe whether a fetch actually reaches the store). -/
structure AuthState where
  cached : Option Credentials
  store : SecretFetch
  storeFetches : Nat

/-- Value of one credential field from the parsed secret:
`secret_data.get(k)` followed by the pydantic `Optional[str]` coercion.
`Except` failure corresponds to a pydantic `ValidationError` while
building `Credentials` (then swallowed by the `except Exception`
handler of `get_iss_credentials`). -/
def credField (d : List (String × JVal)) (k : String) : Except Unit (Option String) :=
  match List.lookup k d with
  | none => .ok none
  | some .null => .ok none
  | some v =>
      match coerceStr v with
      | some s => .ok (some s)
      | none => .error ()

/-- Build the `Credentials` value from the parsed secret
(`Credentials(username=secret_data.get("username"), ...)`). -/
def buildCredentials (d : List (String × JVal)) : Except Unit Credentials := do
  let username ← credField d "username"
  let password ← credField d "password"
  let client_id ← credField d "client_id"
  let client_secret ← credField d "client_secret"
  let api_key ← credField d "api_key"
  let token ← credField d "token"
  let expires_at ← credField d "expires_at"
  .ok ⟨username, password, client_id, client_secret, api_key, token, expires_at⟩

/-- `AuthService.get_iss_credentials(force_refresh)`.  Returns the cached
value unless a refresh is forced or nothing is cached; otherwise reads
the secret, parses it as JSON, checks KEY PRESENCE of one of the two
credential pairs, builds `Credentials`, and caches it.  All failure paths
surface as `AuthenticationError` (the inner `raise AuthenticationError`
and pydantic failures are re-wrapped by the `except Exception` clause as
"Credential retrieval failed: ...", JSON decode failure by its own clause
as "Invalid credential format: ..."). -/
def getIssCredentials (st : AuthState) (forceRefresh : Bool) :
    Except Exc Credentials × AuthState :=
  match st.cached, forceRefresh with
  | some c, false => (.ok c, st)
  | _, _ =>
    let st' : AuthState := { st with storeFetches := st.storeFetches + 1 }
    match st'.store with
    | .unreachable m =>
        (.error ⟨.authenticationException, "Credential retrieval failed: " ++ m⟩, st')
    | .notJson m =>
        (.error ⟨.authenticationException, "Invalid credential format: " ++ m⟩, st')
    | .json d =>
        let hasUserPass := (List.lookup "username" d).isSome &&
          (List.lookup "password" d).isSome
        let hasOauthCreds := (List.lookup "client_id" d).isSome &&
          (List.lookup "client_secret" d).isSome
        if !hasUserPass && !hasOauthCreds then
          (.error ⟨.authenticationException,
            "Credential retrieval failed: Secret must contain either (username, password) or (client_id, client_secret)"⟩,
           st')
        else
          match buildCredentials d with
          | .error _ =>
              (.error ⟨.authenticationException,
                "Credential retrieval failed: validation error for Credentials"⟩, st')
          | .ok creds => (.ok creds, { st' with cached := some creds })

/-! ## Job data models (`models/job_models.py`) -/

/-- `JobType(str, Enum)` — the fixed job-type enumeration. -/
inductive JobType where
  | IWPS
  | ISIM
  | Coho
  | NovaCoho
  | Instance
  | WorkloadJob
  | WorkloadJobROI
  | Custom
deriving DecidableEq

/-- The wire values of `JobType`, in declaration order. -/
def jobTypeTable : List (String × JobType) :=
  [("IWPS", .IWPS), ("ISIM", .ISIM), ("Coho", .Coho), ("NovaCoho", .NovaCoho),
   ("Instance", .Instance), ("WorkloadJob", .WorkloadJob),
   ("WorkloadJobROI", .WorkloadJobROI), ("Custom", .Custom)]

/-- Enum lookup by value, as pydantic performs it for a `str` enum. -/
def JobType.fromValue (s : String) : Option JobType :=
  (jobTypeTable.find? (fun p => p.1 = s)).map (·.2)

/-- Wire value of a `JobType` member (`member.value`). -/
def JobType.value : JobType → String
  | .IWPS => "IWPS"
  | .ISIM => "ISIM"
  | .Coho => "Coho"
  | .NovaCoho => "NovaCoho"
  | .Instance => "Instance"
  | .WorkloadJob => "WorkloadJob"
  | .WorkloadJobROI => "WorkloadJobROI"
  | .Custom => "Custom"

/-- `JobStatus(str, Enum)` — the fixed lifecycle enumeration. -/
inductive JobStatus where
  | requested
  | queued
  | allocating
  | allocated
  | booting
  | inprogress
  | checkpointing
  | done
  | error
  | releasing
  | released
  | complete
deriving DecidableEq

/-- The wire values of `JobStatus`, in declaration order. -/
def jobStatusTable : List (String × JobStatus) :=
  [("requested", .requested), ("queued", .queued), ("allocating", .allocating),
   ("allocated", .allocated), ("booting", .booting), ("inprogress", .inprogress),
   ("checkpointing", .checkpointing), ("done", .done), ("error", .error),
   ("releasing", .releasing), ("released", .released), ("complete", .complete)]

/-- The twelve admissible wire values of `JobStatus`. -/
def jobStatusStrings : List String := jobStatusTable.map (·.1)

/-- Enum lookup by value, as pydantic performs it for a `str` enum:
exactly the listed values are accepted, nothing is coerced. -/
def JobStatus.fromValue (s : String) : Option JobStatus :=
  (jobStatusTable.find? (fun p => p.1 = s)).map (·.2)

/-- Wire value of a `JobStatus` member (`member.value`). -/
def JobStatus.value : JobStatus → String
  | .requested => "requested"
  | .queued => "queued"
  | .allocating => "allocating"
  | .allocated => "allocated"
  | .booting => "booting"
  | .inprogress => "inprogress"
  | .checkpointing => "checkpointing"
  | .done => "done"
  | .error => "error"
  | .releasing => "releasing"
  | .released => "released"
  | .complete => "complete"

/-! Field-parsing combinators embedding pydantic v1 semantics for the
field shapes that occur in the models. -/

/-- Required plain `str` field. -/
def reqStr (k : String) (v : Option JVal) : Except PErr String :=
  match v with
  | none => .error (.validation (k ++ ": field required"))
  | some .null => .error (.validation (k ++ ": none is not an allowed value"))
  | some v =>
      match coerceStr v with
      | some s => .ok s
      | none => .error (.validation (k ++ ": str type expected"))

/-- Required `str` field with `min_length`/`max_length` constraints. -/
def reqStrLen (k : String) (lo hi : Nat) (v : Option JVal) : Except PErr String := do
  let s ← reqStr k v
  if s.length < lo then
    .error (.validation (k ++ ": ensure this value has at least " ++ toString lo ++ " characters"))
  else if hi < s.length then
    .error (.validation (k ++ ": ensure this value has at most " ++ toString hi ++ " characters"))
  else
    .ok s

/-- `Optional[str]` field. -/
def optStr (k : String) (v : Option JVal) : Except PErr (Option String) :=
  match v with
  | none => .ok none
  | some .null => .ok none
  | some v =>
      match coerceStr v with
      | some s => .ok (some s)
      | none => .error (.validation (k ++ ": str type expected"))

/-- `Optional[str]` field with a `max_length` constraint. -/
def optStrMax (k : String) (hi : Nat) (v : Option JVal) : Except PErr (Option String) := do
  match ← optStr k v with
  | none => .ok none
  | some s =>
      if hi < s.length then
        .error (.validation (k ++ ": ensure this value has at most " ++ toString hi ++ " characters"))
      else
        .ok (some s)

/-- `Optional[int]` (or integer-valued `Optional[float]`) field with a
bound predicate from `Field(gt=..., ge=..., le=...)`. -/
def optIntP (k : String) (ok : Int → Bool) (v : Option JVal) : Except PErr (Option Int) :=
  match v with
  | none => .ok none
  | some .null => .ok none
  | some v =>
      match coerceInt v with
      | none => .error (.validation (k ++ ": value is not a valid integer"))
      | some n =>
          if ok n then .ok (some n)
          else .error (.validation (k ++ ": bound constraint violated"))

/-- `Optional[int]` field with a non-`None` default and bounds
(only `priority: Optional[int] = Field(1, ge=1, le=10)` uses this). -/
def optIntDefaultP (k : String) (dflt : Int) (ok : Int → Bool) (v : Option JVal) :
    Except PErr (Option Int) :=
  match v with
  | none => .ok (some dflt)
  | some w => optIntP k ok (some w)

/-- Non-optional `bool` field with a default. -/
def boolDefault (k : String) (dflt : Bool) (v : Option JVal) : Except PErr Bool :=
  match v with
  | none => .ok dflt
  | some v =>
      match coerceBool v with
      | some b => .ok b
      | none => .error (.validation (k ++ ": value could not be parsed to a boolean"))

/-- `Optional[datetime]` field.  Embedded as a pass-through optional
string: no claim depends on date parsing, so the textual content is kept
unvalidated (numeric timestamps are stringified). -/
def optDatetime (k : String) (v : Option JVal) : Except PErr (Option String) :=
  match v with
  | none => .ok none
  | some .null => .ok none
  | some (.str s) => .ok (some s)
  | some (.num n) => .ok (some (toString n))
  | some _ => .error (.validation (k ++ ": invalid datetime format"))

/-- `Optional[Dict[str, Any]]` field. -/
def optDict (k : String) (v : Option JVal) : Except PErr (Option (List (String × JVal))) :=
  match v with
  | none => .ok none
  | some .null => .ok none
  | some (.obj o) => .ok (some o)
  | some _ => .error (.validation (k ++ ": value is not a valid dict"))

/-- Coerce every value of a JSON object to `str` (`Dict[str, str]`). -/
def strStrPairs (k : String) : List (String × JVal) → Except PErr (List (String × String))
  | [] => .ok []
  | (key, v) :: rest =>
      match coerceStr v with
      | none => .error (.validation (k ++ ": str type expected"))
      | some s => do
          let tl ← strStrPairs k rest
          .ok ((key, s) :: tl)

/-- `Optional[Dict[str, str]]` field (without the tags validator). -/
def optStrDict (k : String) (v : Option JVal) :
    Except PErr (Option (List (String × String))) :=
  match v with
  | none => .ok none
  | some .null => .ok none
  | some (.obj o) => do
      let pairs ← strStrPairs k o
      .ok (some pairs)
  | some _ => .error (.validation (k ++ ": value is not a valid dict"))

/-- The shared `tags` field: `Optional[Dict[str, str]] =
Field(default_factory=dict)` plus the `validate_tags` validator (at most
20 entries, key at most 50 chars, value at most 200 chars).  The
validator is declared without `always=True`, so it does not run on the
default. -/
def parseTags (v : Option JVal) : Except PErr (Option (List (String × String))) :=
  match v with
  | none => .ok (some [])
  | some .null => .ok none
  | some w => do
      match ← optStrDict "tags" (some w) with
      | none => .ok none
      | some pairs =>
          if pairs.length > 20 then
            .error (.validation "tags: Maximum 20 tags allowed")
          else if pairs.any (fun p => p.1.length > 50 || p.2.length > 200) then
            .error (.validation "tags: Tag key max 50 chars, value max 200 chars")
          else
            .ok (some pairs)

/-- `Optional[List[str]]` field with `default_factory=list`. -/
def optStrList (k : String) (v : Option JVal) : Except PErr (Option (List String)) :=
  match v with
  | none => .ok (some [])
  | some .null => .ok none
  | some (.arr xs) => do
      let rec go : List JVal → Except PErr (List String)
        | [] => .ok []
        | x :: rest =>
            match coerceStr x with
            | none => .error (.validation (k ++ ": str type expected"))
            | some s => do
                let tl ← go rest
                .ok (s :: tl)
      let ss ← go xs
      .ok (some ss)
  | some _ => .error (.validation (k ++ ": value is not a valid list"))

/-- `Optional[List[str]]` field whose default is `None`
(no `default_factory`). -/
def optStrListNoneDefault (k : String) (v : Option JVal) :
    Except PErr (Option (List String)) :=
  match v with
  | none => .ok none
  | some w => optStrList k (some w)

/-- `Optional[JobStatus]` field (enum member by value; unknown values are
a validation failure, never coerced). -/
def optStatus (k : String) (v : Option JVal) : Except PErr (Option JobStatus) :=
  match v with
  | none => .ok none
  | some .null => .ok none
  | some (.str s) =>
      match JobStatus.fromValue s with
      | some st => .ok (some st)
      | none => .error (.validation (k ++ ": value is not a valid enumeration member"))
  | some _ => .error (.validation (k ++ ": value is not a valid enumeration member"))

/-- Required `JobType` field. -/
def reqJobType (k : String) (v : Option JVal) : Except PErr JobType :=
  match v with
  | none => .error (.validation (k ++ ": field required"))
  | some (.str s) =>
      match JobType.fromValue s with
      | some t => .ok t
      | none => .error (.validation (k ++ ": value is not a valid enumeration member"))
  | some _ => .error (.validation (k ++ ": value is not a valid enumeration member"))

/-- Required `JobStatus` field (used by `JobDetail`). -/
def reqStatus (k : String) (v : Option JVal) : Except PErr JobStatus :=
  match v with
  | none => .error (.validation (k ++ ": field required"))
  | some (.str s) =>
      match JobStatus.fromValue s with
      | some st => .ok st
      | none => .error (.validation (k ++ ": value is not a valid enumeration member"))
  | some _ => .error (.validation (k ++ ": value is not a valid enumeration member"))

/-- `TestCase` model. -/
structure TestCase where
  name : String
  description : Option String := none
  test_type : Option String := none
  parameters : Option (List (String × JVal)) := none
  expected_runtime_minutes : Option Int := none

/-- Parse one `TestCase`. -/
def TestCase.parse (v : JVal) : Except PErr TestCase :=
  match v with
  | .obj o => do
      let name ← reqStr "name" (getKey o "name")
      let description ← optStr "description" (getKey o "description")
      let test_type ← optStr "test_type" (getKey o "test_type")
      let parameters ← optDict "parameters" (getKey o "parameters")
      let expected_runtime_minutes ←
        optIntP "expected_runtime_minutes" (fun n => 0 < n) (getKey o "expected_runtime_minutes")
      .ok ⟨name, description, test_type, parameters, expected_runtime_minutes⟩
  | _ => .error (.validation "test_cases: value is not a valid dict")

/-- `Workload` model: `test_cases` defaults to `[]`, and the
`validate_test_cases` validator (declared without `always=True`, so it
does not run on the default) rejects a PROVIDED empty list. -/
structure Workload where
  name : String
  description : Option String := none
  version : Option String := none
  test_cases : List TestCase := []
  global_parameters : Option (List (String × JVal)) := none

/-- Parse the `Optional[Workload]` field. -/
def optWorkload (v : Option JVal) : Except PErr (Option Workload) :=
  match v with
  | none => .ok none
  | some .null => .ok none
  | some (.obj o) => do
      let name ← reqStr "workload.name" (getKey o "name")
      let description ← optStr "workload.description" (getKey o "description")
      let version ← optStr "workload.version" (getKey o "version")
      let test_cases ←
        match getKey o "test_cases" with
        | none => .ok ([] : List TestCase)
        | some (.arr xs) => do
            let rec go : List JVal → Except PErr (List TestCase)
              | [] => .ok []
              | x :: rest => do
                  let tc ← TestCase.parse x
                  let tl ← go rest
                  .ok (tc :: tl)
            let tcs ← go xs
            if tcs.isEmpty then
              .error (.validation "workload.test_cases: At least one test case is required")
            else
              .ok tcs
        | some _ => .error (.validation "workload.test_cases: value is not a valid list")
      let global_parameters ← optDict "workload.global_parameters" (getKey o "global_parameters")
      .ok (some ⟨name, description, version, test_cases, global_parameters⟩)
  | some _ => .error (.validation "workload: value is not a valid dict")

/-- `Allocation` model (all fields optional with bound constraints). -/
structure Allocation where
  cpu_count : Option Int := none
  memory_gb : Option Int := none
  disk_gb : Option Int := none
  gpu_count : Option Int := none
  node_count : Option Int := none

/-- Parse the optional `Allocation` sub-model. -/
def optAllocation (k : String) (v : Option JVal) : Except PErr (Option Allocation) :=
  match v with
  | none => .ok none
  | some .null => .ok none
  | some (.obj o) => do
      let cpu_count ← optIntP (k ++ ".cpu_count") (fun n => 0 < n) (getKey o "cpu_count")
      let memory_gb ← optIntP (k ++ ".memory_gb") (fun n => 0 < n) (getKey o "memory_gb")
      let disk_gb ← optIntP (k ++ ".disk_gb") (fun n => 0 < n) (getKey o "disk_gb")
      let gpu_count ← optIntP (k ++ ".gpu_count") (fun n => 0 ≤ n) (getKey o "gpu_count")
      let node_count ← optIntP (k ++ ".node_count") (fun n => 0 < n) (getKey o "node_count")
      .ok (some ⟨cpu_count, memory_gb, disk_gb, gpu_count, node_count⟩)
  | some _ => .error (.validation (k ++ ": value is not a valid dict"))

/-- `Execution` model. -/
structure Execution where
  timeout_minutes : Option Int := none
  retry_count : Option Int := none
  environment_variables : Option (List (String × String)) := none
  working_directory : Option String := none
  command_line_args : Option (List String) := none

/-- `Cumulus` model. -/
structure Cumulus where
  enabled : Bool := false
  config : Option (List (String × JVal)) := none
  priority : Option Int := none

/-- `Authentication` model. -/
structure Authentication where
  username : Option String := none
  password : Option String := none
  ssh_key : Option String := none
  auth_type : Option String := some "password"

/-- `ExecutionParameters` model. -/
structure ExecutionParameters where
  allocation : Option Allocation := none
  execution : Option Execution := none
  cumulus : Option Cumulus := none
  authentication : Option Authentication := none
  custom_parameters : Option (List (String × JVal)) := none

/-- Parse the `Optional[ExecutionParameters]` field. -/
def optExecutionParameters (v : Option JVal) : Except PErr (Option ExecutionParameters) :=
  match v with
  | none => .ok none
  | some .null => .ok none
  | some (.obj o) => do
      let allocation ← optAllocation "execution_parameters.allocation" (getKey o "allocation")
      let execution ←
        match getKey o "execution" with
        | none => pure (none : Option Execution)
        | some .null => pure none
        | some (.obj eo) => do
            let timeout_minutes ← optIntP "execution.timeout_minutes" (fun n => 0 < n)
              (getKey eo "timeout_minutes")
            let retry_count ← optIntP "execution.retry_count" (fun n => 0 ≤ n)
              (getKey eo "retry_count")
            let environment_variables ← optStrDict "execution.environment_variables"
              (getKey eo "environment_variables")
            let working_directory ← optStr "execution.working_directory"
              (getKey eo "working_directory")
            let command_line_args ← optStrListNoneDefault "execution.command_line_args"
              (getKey eo "command_line_args")
            pure (some ⟨timeout_minutes, retry_count, environment_variables,
              working_directory, command_line_args⟩)
        | some _ => .error (.validation "execution_parameters.execution: value is not a valid dict")
      let cumulus ←
        match getKey o "cumulus" with
        | none => pure (none : Option Cumulus)
        | some .null => pure none
        | some (.obj co) => do
            let enabled ← boolDefault "cumulus.enabled" false (getKey co "enabled")
            let config ← optDict "cumulus.config" (getKey co "config")
            let priority ← optIntP "cumulus.priority" (fun n => 1 ≤ n && n ≤ 10)
              (getKey co "priority")
            pure (some ⟨enabled, config, priority⟩)
        | some _ => .error (.validation "execution_parameters.cumulus: value is not a valid dict")
      let authentication ←
        match getKey o "authentication" with
        | none => pure (none : Option Authentication)
        | some .null => pure none
        | some (.obj ao) => do
            let username ← optStr "authentication.username" (getKey ao "username")
            let password ← optStr "authentication.password" (getKey ao "password")
            let ssh_key ← optStr "authentication.ssh_key" (getKey ao "ssh_key")
            let auth_type ←
              match getKey ao "auth_type" with
              | none => pure (some "password")
              | some w => optStr "authentication.auth_type" (some w)
            pure (some ⟨username, password, ssh_key, auth_type⟩)
        | some _ =>
            .error (.validation "execution_parameters.authentication: value is not a valid dict")
      let custom_parameters ← optDict "execution_parameters.custom_parameters"
        (getKey o "custom_parameters")
      .ok (some ⟨allocation, execution, cumulus, authentication, custom_parameters⟩)
  | some _ => .error (.validation "execution_parameters: value is not a valid dict")

/-- `JobRequest` model — the record type produced by the jobs listing.
Extra keys are allowed (`extra = "allow"`) and carry no validation, so
they are not retained by the embedding. -/
structure JobRequest where
  job_id : Option String
  name : String
  description : Option String
  job_type : JobType
  platform_id : Option String
  instance_id : Option String
  status : Option JobStatus
  workload : Option Workload
  execution_parameters : Option ExecutionParameters
  tags : Option (List (String × String))
  priority : Option Int
  owner : Option String
  project : Option String
  scheduled_start : Option String
  max_runtime_minutes : Option Int

/-- `JobRequest(**job_data)`.  A non-mapping argument raises `TypeError`
(not caught by `except ValidationError` in the callers); field failures
raise pydantic `ValidationError`.  Aliased fields are populated alias
first, then field name (`allow_population_by_field_name = True`). -/
def JobRequest.parse (v : JVal) : Except PErr JobRequest :=
  match v with
  | .obj o => do
      let job_id ← optStr "JobRequestID" (getField o "JobRequestID" "job_id")
      let name ← reqStrLen "Name" 1 255 (getField o "Name" "name")
      let description ← optStrMax "description" 1000 (getKey o "description")
      let job_type ← reqJobType "Type" (getField o "Type" "job_type")
      let platform_id ← optStr "PlatformID" (getField o "PlatformID" "platform_id")
      let instance_id ← optStr "instance_id" (getKey o "instance_id")
      let status ← optStatus "JobRequestStatus" (getField o "JobRequestStatus" "status")
      let workload ← optWorkload (getKey o "workload")
      let execution_parameters ← optExecutionParameters (getKey o "execution_parameters")
      let tags ← parseTags (getKey o "tags")
      let priority ← optIntDefaultP "priority" 1 (fun n => 1 ≤ n && n ≤ 10) (getKey o "priority")
      let owner ← optStr "owner" (getKey o "owner")
      let project ← optStr "project" (getKey o "project")
      let scheduled_start ← optDatetime "scheduled_start" (getKey o "scheduled_start")
      let max_runtime_minutes ← optIntP "max_runtime_minutes" (fun n => 0 < n)
        (getKey o "max_runtime_minutes")
      .ok ⟨job_id, name, description, job_type, platform_id, instance_id, status,
        workload, execution_parameters, tags, priority, owner, project,
        scheduled_start, max_runtime_minutes⟩
  | _ => .error (.typeError "JobRequest: argument after ** must be a mapping")

/-- `SubStates` model. -/
structure SubStates where
  state : Option String := none
  sub_state : Option String := none
  detailed_state : Option String := none
  progress_percentage : Option Int := none

/-- `JobDetail` model — `JobRequest` plus runtime data; `status` becomes
REQUIRED (`JobStatus = Field(..., alias="JobRequestStatus")`). -/
structure JobDetail where
  job_id : Option String
  name : String
  description : Option String
  job_type : JobType
  platform_id : Option String
  instance_id : Option String
  status : JobStatus
  workload : Option Workload
  execution_parameters : Option ExecutionParameters
  tags : Option (List (String × String))
  priority : Option Int
  owner : Option String
  project : Option String
  scheduled_start : Option String
  max_runtime_minutes : Option Int
  sub_states : Option SubStates
  created_at : Option String
  started_at : Option String
  completed_at : Option String
  last_updated : Option String
  actual_runtime_minutes : Option Int
  exit_code : Option Int
  error_message : Option String
  actual_allocation : Option Allocation
  peak_memory_usage_gb : Option Int
  peak_cpu_usage_percent : Option Int
  input_files : Option (List String)
  output_files : Option (List String)
  log_files : Option (List String)
  platform_name : Option String
  instance_name : Option String
  node_assignments : Option (List String)

/-- `JobDetail(**data)`. -/
def JobDetail.parse (v : JVal) : Except PErr JobDetail :=
  match v with
  | .obj o => do
      let job_id ← optStr "JobRequestID" (getField o "JobRequestID" "job_id")
      let name ← reqStrLen "Name" 1 255 (getField o "Name" "name")
      let description ← optStrMax "description" 1000 (getKey o "description")
      let job_type ← reqJobType "Type" (getField o "Type" "job_type")
      let platform_id ← optStr "PlatformID" (getField o "PlatformID" "platform_id")
      let instance_id ← optStr "instance_id" (getKey o "instance_id")
      let status ← reqStatus "JobRequestStatus" (getField o "JobRequestStatus" "status")
      let workload ← optWorkload (getKey o "workload")
      let execution_parameters ← optExecutionParameters (getKey o "execution_parameters")
      let tags ← parseTags (getKey o "tags")
      let priority ← optIntDefaultP "priority" 1 (fun n => 1 ≤ n && n ≤ 10) (getKey o "priority")
      let owner ← optStr "owner" (getKey o "owner")
      let project ← optStr "project" (getKey o "project")
      let scheduled_start ← optDatetime "scheduled_start" (getKey o "scheduled_start")
      let max_runtime_minutes ← optIntP "max_runtime_minutes" (fun n => 0 < n)
        (getKey o "max_runtime_minutes")
      let sub_states ←
        match getField o "SubStates" "sub_states" with
        | none => pure (none : Option SubStates)
        | some .null => pure none
        | some (.obj so) => do
            let state ← optStr "sub_states.state" (getKey so "state")
            let sub_state ← optStr "sub_states.sub_state" (getKey so "sub_state")
            let detailed_state ← optStr "sub_states.detailed_state" (getKey so "detailed_state")
            let progress_percentage ← optIntP "sub_states.progress_percentage"
              (fun n => 0 ≤ n && n ≤ 100) (getKey so "progress_percentage")
            pure (some ⟨state, sub_state, detailed_state, progress_percentage⟩)
        | some _ => .error (.validation "SubStates: value is not a valid dict")
      let created_at ← optDatetime "RequestedOn" (getField o "RequestedOn" "created_at")
      let started_at ← optDatetime "started_at" (getKey o "started_at")
      let completed_at ← optDatetime "completed_at" (getKey o "completed_at")
      let last_updated ← optDatetime "LastUpdatedOn" (getField o "LastUpdatedOn" "last_updated")
      let actual_runtime_minutes ← optIntP "actual_runtime_minutes" (fun _ => true)
        (getKey o "actual_runtime_minutes")
      let exit_code ← optIntP "exit_code" (fun _ => true) (getKey o "exit_code")
      let error_message ← optStr "JobRequestStatusDetails"
        (getField o "JobRequestStatusDetails" "error_message")
      let actual_allocation ← optAllocation "Allocation" (getField o "Allocation" "actual_allocation")
      let peak_memory_usage_gb ← optIntP "peak_memory_usage_gb" (fun _ => true)
        (getKey o "peak_memory_usage_gb")
      let peak_cpu_usage_percent ← optIntP "peak_cpu_usage_percent"
        (fun n => 0 ≤ n && n ≤ 100) (getKey o "peak_cpu_usage_percent")
      let input_files ← optStrList "input_files" (getKey o "input_files")
      let output_files ← optStrList "output_files" (getKey o "output_files")
      let log_files ← optStrList "log_files" (getKey o "log_files")
      let platform_name ← optStr "PlatformName" (getField o "PlatformName" "platform_name")
      let instance_name ← optStr "instance_name" (getKey o "instance_name")
      let node_assignments ← optStrList "node_assignments" (getKey o "node_assignments")
      .ok ⟨job_id, name, description, job_type, platform_id, instance_id, status,
        workload, execution_parameters, tags, priority, owner, project,
        scheduled_start, max_runtime_minutes, sub_states, created_at, started_at,
        completed_at, last_updated, actual_runtime_minutes, exit_code, error_message,
        actual_allocation, peak_memory_usage_gb, peak_cpu_usage_percent,
        input_files, output_files, log_files, platform_name, instance_name,
        node_assignments⟩
  | _ => .error (.typeError "JobDetail: argument after ** must be a mapping")

/-! ## The remote API client (`services/iss_client.py`) -/

/-- An HTTP response body: the raw text (`response.text()`) and, when the
text parses as JSON, the parsed document (`response.json()`; `none` means
the parse raises). -/
structure HttpBody where
  raw : String
  json : Option JVal

/-- Result of one outbound HTTP call: a status/body response, a
network-level failure (`aiohttp.ClientError`), or a timeout
(`asyncio.TimeoutError`). -/
inductive HttpResult where
  | resp (status : Nat) (body : HttpBody)
  | netError (msg : String)
  | timeout

/-- Relevant settings of the client. -/
structure ISSSettings where
  issApiUrl : String
  authDomain : String

/-- Remove leading characters `c` (Python `s.lstrip(c)`). -/
def lstripChar (c : Char) (s : String) : String :=
  ⟨s.data.dropWhile (· = c)⟩

/-- Remove trailing characters `c` (Python `s.rstrip(c)`). -/
def rstripChar (c : Char) (s : String) : String :=
  ⟨(s.data.reverse.dropWhile (· = c)).reverse⟩

/-- Remove leading and trailing characters `c` (Python `s.strip(c)`). -/
def stripChar (c : Char) (s : String) : String :=
  lstripChar c (rstripChar c s)

/-- `ISSClient._build_url`. -/
def buildUrl (settings : ISSSettings) (endpoint : String) : String :=
  rstripChar '/' settings.issApiUrl ++ "/v1/" ++ lstripChar '/' endpoint

/-- A query-parameter value. -/
inductive PVal where
  | int (n : Int)
  | str (s : String)
deriving DecidableEq

/-- One outbound call on the main transport, as recorded in the trace. -/
structure TransportCall where
  endpoint : String
  params : List (String × PVal)
  creds : Credentials

/-- State of an `ISSClient` together with its `AuthService` and the
response oracles of its two outbound channels: `api` answers
`session.request` (the main API transport, indexed by `apiCalls`) and
`tokenApi` answers `session.post` to the OAuth2 token endpoint (indexed
by `tokenCalls`).  `calls` is a trace of the main-transport calls made,
recording the credentials in use for each. -/
structure ISSState where
  settings : ISSSettings
  credentials : Option Credentials
  auth : AuthState
  api : Nat → HttpResult
  apiCalls : Nat
  tokenApi : Nat → HttpResult
  tokenCalls : Nat
  calls : List TransportCall

/-- `ISSClient._get_credentials`: returns the client's cached reference,
or obtains one from the `AuthService` — WITHOUT `force_refresh`, so a
populated provider cache is served as-is. -/
def clientGetCredentials (st : ISSState) : Except Exc Credentials × ISSState :=
  match st.credentials with
  | some c => (.ok c, st)
  | none =>
      match getIssCredentials st.auth false with
      | (.ok c, a) => (.ok c, { st with credentials := some c, auth := a })
      | (.error e, a) => (.error e, { st with auth := a })

/-- `ISSClient._get_oauth_token`: one POST to the token endpoint.  Every
failure is an `ISSClientError` (= `ISSAPIException`); failures raised
inside the `try` body are ISSClientError instances and are re-caught by
the generic `except Exception` clause, which prefixes
"OAuth2 authentication failed: ". -/
def getOauthToken (st : ISSState) : Except Exc JVal × ISSState :=
  let r := st.tokenApi st.tokenCalls
  let st := { st with tokenCalls := st.tokenCalls + 1 }
  match r with
  | .timeout =>
      (.error ⟨.issAPIException,
        "OAuth2 request timed out to " ++ st.settings.authDomain⟩, st)
  | .netError m => (.error ⟨.issAPIException, "OAuth2 client error: " ++ m⟩, st)
  | .resp status body =>
      if status ≠ 200 then
        (.error ⟨.issAPIException,
          "OAuth2 authentication failed: OAuth2 token request failed: " ++
            toString status ++ " - " ++ body.raw⟩, st)
      else
        match body.json with
        | none =>
            (.error ⟨.issAPIException,
              "OAuth2 authentication failed: Invalid OAuth2 response format: " ++ body.raw⟩, st)
        | some doc =>
            let accessToken :=
              match doc with
              | .obj o => (getKey o "access_token").getD .null
              | _ => .null
            if pyTruthy accessToken then
              (.ok accessToken, st)
            else
              (.error ⟨.issAPIException,
                "OAuth2 authentication failed: No access_token in OAuth2 response"⟩, st)

/-- Which authentication path `_request` selects, using Python
truthiness exactly as the source's `if`/`elif` chain does. -/
inductive AuthPath where
  | oauth
  | basic
  | invalid
deriving DecidableEq

/-- The source's dispatch: OAuth2 when `client_id and client_secret` is
truthy, Basic Auth when `username and password` is truthy, otherwise a
fatal client error. -/
def authPath (c : Credentials) : AuthPath :=
  if truthyStr c.client_id && truthyStr c.client_secret then .oauth
  else if truthyStr c.username && truthyStr c.password then .basic
  else .invalid

/-- Outcome of a single attempt inside `_request`, before the
401-retry decision. -/
inductive AttemptOut where
  | ok (data : JVal)
  | got401
  | fail (e : Exc)

/-- One attempt of `ISSClient._request`: obtain credentials, select the
authentication path (performing the OAuth2 token exchange when
applicable), make one transport call, and dispatch on the response
status in source order (401, 404, 429, >= 400, JSON parse). -/
def requestAttempt (endpoint : String) (params : List (String × PVal)) (st : ISSState) :
    AttemptOut × ISSState :=
  match clientGetCredentials st with
  | (.error e, st) => (.fail e, st)
  | (.ok c, st) =>
    let afterAuth : Except Exc Unit × ISSState :=
      match authPath c with
      | .oauth =>
          match getOauthToken st with
          | (.ok _, st) => (.ok (), st)
          | (.error e, st) => (.error e, st)
      | .basic => (.ok (), st)
      | .invalid =>
          (.error ⟨.issAPIException, "No valid authentication credentials available"⟩, st)
    match afterAuth with
    | (.error e, st) => (.fail e, st)
    | (.ok _, st) =>
      let r := st.api st.apiCalls
      let st := { st with apiCalls := st.apiCalls + 1,
                          calls := st.calls ++ [⟨endpoint, params, c⟩] }
      match r with
      | .netError m => (.fail ⟨.issAPIException, "Network error: " ++ m⟩, st)
      | .timeout => (.fail ⟨.issAPIException, "Request timeout"⟩, st)
      | .resp status body =>
          if status = 401 then (.got401, st)
          else if status = 404 then
            (.fail ⟨.issAPIException, "Resource not found: " ++ endpoint⟩, st)
          else if status = 429 then
            (.fail ⟨.rateLimitException, "Rate limit exceeded"⟩, st)
          else if status ≥ 400 then
            (.fail ⟨.issAPIException,
              "Request failed with status " ++ toString status ++ ": " ++ body.raw⟩, st)
          else
            match body.json with
            | some data => (.ok data, st)
            | none =>
                (.fail ⟨.issAPIException, "Invalid response format: " ++ body.raw⟩, st)

/-- `ISSClient._request(method, endpoint, ..., retry_auth)`.  On a 401
with `retry_auth` set, the client clears ITS OWN credentials reference
(`self._credentials = None`) and recurses once with `retry_auth=False`;
the recursion is unrolled here.  A 401 with `retry_auth` unset raises
`ISSAuthenticationError("Authentication failed after retry")`. -/
def issRequest (endpoint : String) (params : List (String × PVal)) (retryAuth : Bool)
    (st : ISSState) : Except Exc JVal × ISSState :=
  match requestAttempt endpoint params st with
  | (.ok data, st) => (.ok data, st)
  | (.fail e, st) => (.error e, st)
  | (.got401, st) =>
      if retryAuth then
        match requestAttempt endpoint params { st with credentials := none } with
        | (.ok data, st) => (.ok data, st)
        | (.fail e, st) => (.error e, st)
        | (.got401, st) =>
            (.error ⟨.authenticationException, "Authentication failed after retry"⟩, st)
      else
        (.error ⟨.authenticationException, "Authentication failed after retry"⟩, st)

/-- Message text of a model-construction failure (`str(e)`), abridged to
the embedding's own messages. -/
def PErr.message : PErr → String
  | .validation m => m
  | .typeError m => m

/-! Python `repr` (and `str` for containers) of the modelled JSON
values.  String escaping inside `repr` is not modelled: the claims only
use the LENGTH of these strings, and only through budget comparisons
that hold for every length function. -/

mutual

def pyRepr : JVal → String
  | .null => "None"
  | .bool b => if b then "True" else "False"
  | .num n => toString n
  | .str s => "\x27" ++ s ++ "\x27"
  | .arr xs => "[" ++ pyReprList xs ++ "]"
  | .obj fs => "\x7b" ++ pyReprObj fs ++ "\x7d"

def pyReprList : List JVal → String
  | [] => ""
  | [x] => pyRepr x
  | x :: y :: rest => pyRepr x ++ ", " ++ pyReprList (y :: rest)

def pyReprObj : List (String × JVal) → String
  | [] => ""
  | [(k, v)] => "\x27" ++ k ++ "\x27: " ++ pyRepr v
  | (k, v) :: p :: rest => "\x27" ++ k ++ "\x27: " ++ pyRepr v ++ ", " ++ pyReprObj (p :: rest)

end

/-- Python `str()` of a modelled JSON value. -/
def pyStrConv : JVal → String
  | .null => "None"
  | .bool b => if b then "True" else "False"
  | .num n => toString n
  | .str s => s
  | .arr xs => pyRepr (.arr xs)
  | .obj fs => pyRepr (.obj fs)

/-- Optional string filter parameter, included when truthy
(`if value: params[key] = value`). -/
def optStrParam (key : String) (v : Option String) : List (String × PVal) :=
  match v with
  | some s => if !s.isEmpty then [(key, .str s)] else []
  | none => []

/-- Arguments of `ISSClient.get_jobs`, with the source's defaults. -/
structure JobsArgs where
  limit : Int := 100
  status : Option JobStatus := none
  job_request_id : Option String := none
  job_type : Option String := none
  queue : Option String := none
  requested_by : Option String := none
  parent_instance_id : Option String := none
  workload_job_roi_id : Option String := none
  continuation_token : Option String := none

/-- The outbound query parameters built by `get_jobs`: the limit is
clamped with `min(max(limit, 1), 100)` and each filter is included when
truthy, under the ISS API's own parameter names. -/
def jobsParams (a : JobsArgs) : List (String × PVal) :=
  [("Limit", .int (min (max a.limit 1) 100))]
  ++ (match a.status with
      | some s => [("JobRequestStatus", .str s.value)]
      | none => [])
  ++ optStrParam "JobRequestID" a.job_request_id
  ++ optStrParam "Type" a.job_type
  ++ optStrParam "Queue" a.queue
  ++ optStrParam "RequestedBy" a.requested_by
  ++ optStrParam "ParentInstanceID" a.parent_instance_id
  ++ optStrParam "WorkloadJobROIID" a.workload_job_roi_id
  ++ optStrParam "ContinuationToken" a.continuation_token

/-- The metadata-flattening step of `get_jobs`: pop `Metadata` and
splice four of its entries into the record.  A non-dict `Metadata` value
raises `AttributeError` (`metadata.get`), which the loop's
`except ValidationError` does not catch. -/
def flattenMeta (o : List (String × JVal)) : Except PErr (List (String × JVal)) :=
  match List.lookup "Metadata" o with
  | none => .ok o
  | some (.obj mo) =>
      let o := popKey o "Metadata"
      let o := setKey o "RequestedOn" ((List.lookup "RequestedOn" mo).getD .null)
      let o := setKey o "LastUpdatedOn" ((List.lookup "LastUpdatedOn" mo).getD .null)
      let o := setKey o "RequestedBy" ((List.lookup "RequestedBy" mo).getD .null)
      let o := setKey o "LastUpdatedBy" ((List.lookup "LastUpdatedBy" mo).getD .null)
      .ok o
  | some _ => .error (.typeError "Metadata: object has no attribute get")

/-- One iteration of the `get_jobs` record loop: flatten the metadata,
then `JobRequest(**job_data)`.  A non-mapping record raises `TypeError`
(not a `ValidationError`). -/
def processJob (v : JVal) : Except PErr JobRequest :=
  match v with
  | .obj o =>
      match flattenMeta o with
      | .error e => .error e
      | .ok o' => JobRequest.parse (.obj o')
  | _ => .error (.typeError "job_data: argument after ** must be a mapping")

/-- The `get_jobs` record loop: records failing with pydantic
`ValidationError` are logged and SKIPPED; any other failure propagates
(and aborts the whole listing). -/
def parseJobsLoop : List JVal → Except PErr (List JobRequest)
  | [] => .ok []
  | j :: rest =>
      match processJob j with
      | .ok job => (parseJobsLoop rest).map (job :: ·)
      | .error (.validation _) => parseJobsLoop rest
      | .error (.typeError m) => .error (.typeError m)

/-- `ISSJobsResponse` model. -/
structure ISSJobsResponse where
  jobs : List JobRequest
  count : Int
  continuation_token : Option String

/-- `ISSClient.get_jobs`.  The whole body sits in a `try` whose
`except Exception` clause re-raises EVERY failure as
`ISSClientError("Failed to get jobs: ...")` — including the
`ISSNotFoundError` / `ISSRateLimitError` / `ISSAuthenticationError`
raised by `_request`.  The returned `count` is the server-reported
`Count` when present (`data.get("Count", len(jobs))`), falling back to
the number of parsed records only when `Count` is absent. -/
def getJobs (a : JobsArgs) (st : ISSState) : Except Exc ISSJobsResponse × ISSState :=
  match issRequest "jobs" (jobsParams a) true st with
  | (.error e, st) => (.error ⟨.issAPIException, "Failed to get jobs: " ++ e.msg⟩, st)
  | (.ok data, st) =>
      match data with
      | .obj o =>
          let items : Except PErr (List JVal) :=
            match getKey o "Jobs" with
            | none => .ok []
            | some (.arr xs) => .ok xs
            | some _ => .error (.typeError "Jobs: value is not a list of mappings")
          match items with
          | .error e => (.error ⟨.issAPIException, "Failed to get jobs: " ++ e.message⟩, st)
          | .ok xs =>
              match parseJobsLoop xs with
              | .error e => (.error ⟨.issAPIException, "Failed to get jobs: " ++ e.message⟩, st)
              | .ok jobs =>
                  let countE : Except PErr Int :=
                    match getKey o "Count" with
                    | none => .ok (jobs.length : Int)
                    | some v =>
                        match coerceInt v with
                        | some n => .ok n
                        | none => .error (.validation "count: value is not a valid integer")
                  match countE, optStr "continuation_token" (getKey o "ContinuationToken") with
                  | .ok n, .ok tok => (.ok ⟨jobs, n, tok⟩, st)
                  | .error e, _ => (.error ⟨.issAPIException, "Failed to get jobs: " ++ e.message⟩, st)
                  | _, .error e => (.error ⟨.issAPIException, "Failed to get jobs: " ++ e.message⟩, st)
      | _ =>
          (.error ⟨.issAPIException, "Failed to get jobs: response data has no attribute get"⟩, st)

/-- `ISSClient.get_job`.  Only pydantic `ValidationError` is caught
(re-raised as `ISSClientError("Invalid job data format: ...")`); every
other failure — including the `ISSNotFoundError`, `ISSRateLimitError`
and `ISSAuthenticationError` raised by `_request` — propagates to the
caller unchanged. -/
def getJob (jobId : String) (st : ISSState) : Except Exc JobDetail × ISSState :=
  match issRequest ("jobs/job/" ++ jobId) [] true st with
  | (.error e, st) => (.error e, st)
  | (.ok data, st) =>
      match JobDetail.parse data with
      | .ok j => (.ok j, st)
      | .error (.validation m) =>
          (.error ⟨.issAPIException, "Invalid job data format: " ++ m⟩, st)
      | .error (.typeError m) => (.error ⟨.generic, m⟩, st)

/-- `ISSClient.get_platforms`: passes the query parameters through and
returns the raw response; every failure is re-wrapped as
`ISSClientError("Failed to get platforms: ...")`.  (The body also calls
`len(data.get("Platforms", []))` for logging, which raises on a
non-sizable value; that is modelled by the length-check guard.) -/
def getPlatforms (queryParams : List (String × PVal)) (st : ISSState) :
    Except Exc JVal × ISSState :=
  match issRequest "platforms" queryParams true st with
  | (.error e, st) => (.error ⟨.issAPIException, "Failed to get platforms: " ++ e.msg⟩, st)
  | (.ok data, st) =>
      match data with
      | .obj o =>
          let sizable :=
            match getKey o "Platforms" with
            | none => true
            | some (.arr _) => true
            | some (.str _) => true
            | some (.obj _) => true
            | some _ => false
          if sizable then (.ok (.obj o), st)
          else (.error ⟨.issAPIException, "Failed to get platforms: object has no len"⟩, st)
      | _ =>
          (.error ⟨.issAPIException, "Failed to get platforms: response data has no attribute get"⟩, st)

/-! ## Platform and instance models (`models/platform_models.py`) -/

/-- `PlatformType(str, Enum)`. -/
inductive PlatformType where
  | Simulation
  | Emulation
  | Hardware
  | Virtual
  | Hybrid
deriving DecidableEq

/-- Enum lookup by value. -/
def PlatformType.fromValue (s : String) : Option PlatformType :=
  match s with
  | "Simulation" => some .Simulation
  | "Emulation" => some .Emulation
  | "Hardware" => some .Hardware
  | "Virtual" => some .Virtual
  | "Hybrid" => some .Hybrid
  | _ => none

/-- Python `str.isalnum` (restricted to the ASCII alphanumerics used by
the identifiers under study). -/
def pyIsAlnum (s : String) : Bool :=
  !s.isEmpty && s.data.all Char.isAlphanum

/-- The `validate_platform_id` validator:
`v.replace("-", "").replace("_", "").replace(".", "").isalnum()`. -/
def platformIdOk (v : String) : Bool :=
  pyIsAlnum ⟨v.data.filter (fun ch => ch ≠ '-' && ch ≠ '_' && ch ≠ '.')⟩

/-- The `validate_instance_id` validator:
`v.replace("-", "").replace("_", "").isalnum()`. -/
def instanceIdOk (v : String) : Bool :=
  pyIsAlnum ⟨v.data.filter (fun ch => ch ≠ '-' && ch ≠ '_')⟩

/-- Non-optional `str` field with a default. -/
def strDefault (k : String) (dflt : String) (v : Option JVal) : Except PErr String :=
  match v with
  | none => .ok dflt
  | some w => reqStr k (some w)

/-- `Optional[str]` field whose default is a non-`None` string. -/
def optStrDefault (k : String) (dflt : String) (v : Option JVal) :
    Except PErr (Option String) :=
  match v with
  | none => .ok (some dflt)
  | some w => optStr k (some w)

/-- `Platform` model.  The five nested sub-model fields (`features`,
`defaults`, `boot_profiles`, `trace_config`, `fuse_config`) are kept as
raw unvalidated JSON here: the client's `get_platform` builds its
`mapped_data` dict from a fixed key set that never includes them, so
their sub-model validation is never exercised by the code under
study. -/
structure Platform where
  platform_id : String
  name : String
  description : Option String
  platform_type : PlatformType
  version : Option String
  is_active : Bool
  is_available : Bool
  maintenance_mode : Bool
  max_cpu_count : Option Int
  max_memory_gb : Option Int
  max_disk_gb : Option Int
  max_gpu_count : Option Int
  max_concurrent_jobs : Option Int
  features : Option JVal
  defaults : Option JVal
  boot_profiles : Option JVal
  trace_config : Option JVal
  fuse_config : Option JVal
  tags : Option (List (String × String))
  owner : Option String
  created_by : Option String
  created_at : Option String
  last_modified : Option String
  last_used : Option String
  location : Option String
  access_url : Option String
  documentation_url : Option String

/-- `Platform(**mapped_data)`. -/
def Platform.parse (v : JVal) : Except PErr Platform :=
  match v with
  | .obj o => do
      let platform_id ← reqStr "platform_id" (getKey o "platform_id")
      let platform_id ←
        if platformIdOk platform_id then pure platform_id
        else .error (.validation
          "platform_id: Platform ID must be alphanumeric with hyphens, underscores, and dots")
      let name ← reqStrLen "name" 1 255 (getKey o "name")
      let description ← optStrMax "description" 1000 (getKey o "description")
      let platform_type ←
        match getKey o "platform_type" with
        | none => .error (.validation "platform_type: field required")
        | some (.str s) =>
            match PlatformType.fromValue s with
            | some t => pure t
            | none => .error (.validation "platform_type: value is not a valid enumeration member")
        | some _ => .error (.validation "platform_type: value is not a valid enumeration member")
      let version ← optStr "version" (getKey o "version")
      let is_active ← boolDefault "is_active" true (getKey o "is_active")
      let is_available ← boolDefault "is_available" true (getKey o "is_available")
      let maintenance_mode ← boolDefault "maintenance_mode" false (getKey o "maintenance_mode")
      let max_cpu_count ← optIntP "max_cpu_count" (fun n => 0 < n) (getKey o "max_cpu_count")
      let max_memory_gb ← optIntP "max_memory_gb" (fun n => 0 < n) (getKey o "max_memory_gb")
      let max_disk_gb ← optIntP "max_disk_gb" (fun n => 0 < n) (getKey o "max_disk_gb")
      let max_gpu_count ← optIntP "max_gpu_count" (fun n => 0 ≤ n) (getKey o "max_gpu_count")
      let max_concurrent_jobs ← optIntP "max_concurrent_jobs" (fun n => 0 < n)
        (getKey o "max_concurrent_jobs")
      let features :=
        match getKey o "features" with
        | none => none
        | some .null => none
        | some w => some w
      let defaults :=
        match getKey o "defaults" with
        | none => none
        | some .null => none
        | some w => some w
      let boot_profiles :=
        match getKey o "boot_profiles" with
        | none => some (JVal.arr [])
        | some .null => none
        | some w => some w
      let trace_config :=
        match getKey o "trace_config" with
        | none => none
        | some .null => none
        | some w => some w
      let fuse_config :=
        match getKey o "fuse_config" with
        | none => none
        | some .null => none
        | some w => some w
      let tags ← parseTags (getKey o "tags")
      let owner ← optStr "owner" (getKey o "owner")
      let created_by ← optStr "created_by" (getKey o "created_by")
      let created_at ← optDatetime "created_at" (getKey o "created_at")
      let last_modified ← optDatetime "last_modified" (getKey o "last_modified")
      let last_used ← optDatetime "last_used" (getKey o "last_used")
      let location ← optStr "location" (getKey o "location")
      let access_url ← optStr "access_url" (getKey o "access_url")
      let documentation_url ← optStr "documentation_url" (getKey o "documentation_url")
      .ok ⟨platform_id, name, description, platform_type, version, is_active,
        is_available, maintenance_mode, max_cpu_count, max_memory_gb, max_disk_gb,
        max_gpu_count, max_concurrent_jobs, features, defaults, boot_profiles,
        trace_config, fuse_config, tags, owner, created_by, created_at,
        last_modified, last_used, location, access_url, documentation_url⟩
  | _ => .error (.typeError "Platform: argument after ** must be a mapping")

/-- Add a key only when absent (Python `d.setdefault(k, v)`). -/
def setDefaultKey (o : List (String × JVal)) (k : String) (v : JVal) :
    List (String × JVal) :=
  if (List.lookup k o).isSome then o else o ++ [(k, v)]

/-- Python `float()` restricted to integer-valued inputs (the modelled
sublanguage); `none` means `float()` raises. -/
def pyFloatInt : JVal → Option Int
  | .num n => some n
  | .bool b => some (if b then 1 else 0)
  | .str s => s.toInt?
  | _ => none

/-- The `mapped_data` construction of `ISSClient.get_platform`:
a fixed field-name mapping from the ISS response to the internal model,
`Simics → Simulation` (anything else → `Virtual`), `Features` presence
forcing `is_available=True` plus an `iwps_enabled` tag, and
`PlatformMemorySize` through `float()` (whose failure raises outside
pydantic). -/
def buildMappedPlatform (o : List (String × JVal)) : Except PErr (List (String × JVal)) :=
  let m : List (String × JVal) :=
    [("platform_id", (getKey o "PlatformID").getD (.str "")),
     ("name", (getKey o "PlatformName").getD (.str ""))]
  let isSimics : Bool :=
    match getKey o "PlatformType" with
    | some (.str s) => s = "Simics"
    | _ => false
  let m := m ++ [("platform_type",
    if isSimics then .str "Simulation" else .str "Virtual")]
  let m := m ++ [("description", (getKey o "Description").getD .null)]
  let v1 := (getKey o "SimicsPlatformVersion").getD .null
  let m := m ++ [("version",
    if pyTruthy v1 then v1 else (getKey o "SimicsPlatformRelease").getD .null)]
  let m :=
    match getKey o "Features" with
    | none => m
    | some f =>
        let m := setKey m "is_available" (.bool true)
        match f with
        | .obj fo =>
            match getKey fo "iwps_enabled" with
            | some ie => setKey m "tags" (.obj [("iwps_enabled", .str (pyStrConv ie))])
            | none => m
        | _ => m
  match getKey o "PlatformMemorySize" with
  | none =>
      .ok (setDefaultKey (setDefaultKey (setDefaultKey m "is_active" (.bool true))
        "is_available" (.bool true)) "maintenance_mode" (.bool false))
  | some v =>
      match pyFloatInt v with
      | some n =>
          let m := m ++ [("max_memory_gb", .num n)]
          .ok (setDefaultKey (setDefaultKey (setDefaultKey m "is_active" (.bool true))
            "is_available" (.bool true)) "maintenance_mode" (.bool false))
      | none => .error (.typeError "float: could not convert PlatformMemorySize")

/-- `ISSClient.get_platform`.  pydantic `ValidationError` is re-raised
as `ISSClientError("Invalid platform data format: ...")`; every other
failure — including `_request` errors — is re-raised by the
`except Exception` clause as
`ISSClientError("Failed to get platform <id>: ...")`. -/
def getPlatform (platformId : String) (st : ISSState) : Except Exc Platform × ISSState :=
  match issRequest ("platforms/platform/" ++ platformId) [] true st with
  | (.error e, st) =>
      (.error ⟨.issAPIException,
        "Failed to get platform " ++ platformId ++ ": " ++ e.msg⟩, st)
  | (.ok data, st) =>
      match data with
      | .obj o =>
          match buildMappedPlatform o with
          | .error e =>
              (.error ⟨.issAPIException,
                "Failed to get platform " ++ platformId ++ ": " ++ e.message⟩, st)
          | .ok mapped =>
              match Platform.parse (.obj mapped) with
              | .ok p => (.ok p, st)
              | .error (.validation m) =>
                  (.error ⟨.issAPIException, "Invalid platform data format: " ++ m⟩, st)
              | .error (.typeError m) =>
                  (.error ⟨.issAPIException,
                    "Failed to get platform " ++ platformId ++ ": " ++ m⟩, st)
      | _ =>
          (.error ⟨.issAPIException,
            "Failed to get platform " ++ platformId ++ ": response data has no attribute get"⟩, st)

/-- `Instance` model. -/
structure Instance where
  instance_id : String
  name : String
  description : Option String
  platform_id : String
  platform_name : Option String
  status : String
  is_active : Bool
  is_available : Bool
  in_use : Bool
  allocated_cpu_count : Option Int
  allocated_memory_gb : Option Int
  allocated_disk_gb : Option Int
  allocated_gpu_count : Option Int
  current_cpu_usage_percent : Option Int
  current_memory_usage_gb : Option Int
  current_disk_usage_gb : Option Int
  boot_profile : Option String
  network_config : Option (List (String × JVal))
  storage_config : Option (List (String × JVal))
  current_job_id : Option String
  current_job_name : Option String
  job_count_today : Option Int
  job_count_total : Option Int
  created_at : Option String
  last_boot_time : Option String
  last_used : Option String
  uptime_hours : Option Int
  health_status : Option String
  last_health_check : Option String
  error_message : Option String
  access_url : Option String
  ssh_endpoint : Option String
  vnc_endpoint : Option String
  tags : Option (List (String × String))
  owner : Option String

/-- `Instance(**instance_data)`. -/
def Instance.parse (v : JVal) : Except PErr Instance :=
  match v with
  | .obj o => do
      let instance_id ← reqStr "instance_id" (getKey o "instance_id")
      let instance_id ←
        if instanceIdOk instance_id then pure instance_id
        else .error (.validation
          "instance_id: Instance ID must be alphanumeric with hyphens/underscores")
      let name ← reqStrLen "name" 1 255 (getKey o "name")
      let description ← optStrMax "description" 1000 (getKey o "description")
      let platform_id ← reqStr "platform_id" (getKey o "platform_id")
      let platform_name ← optStr "platform_name" (getKey o "platform_name")
      let status ← strDefault "status" "Unknown" (getKey o "status")
      let is_active ← boolDefault "is_active" true (getKey o "is_active")
      let is_available ← boolDefault "is_available" true (getKey o "is_available")
      let in_use ← boolDefault "in_use" false (getKey o "in_use")
      let allocated_cpu_count ← optIntP "allocated_cpu_count" (fun n => 0 < n)
        (getKey o "allocated_cpu_count")
      let allocated_memory_gb ← optIntP "allocated_memory_gb" (fun n => 0 < n)
        (getKey o "allocated_memory_gb")
      let allocated_disk_gb ← optIntP "allocated_disk_gb" (fun n => 0 < n)
        (getKey o "allocated_disk_gb")
      let allocated_gpu_count ← optIntP "allocated_gpu_count" (fun n => 0 ≤ n)
        (getKey o "allocated_gpu_count")
      let current_cpu_usage_percent ← optIntP "current_cpu_usage_percent"
        (fun n => 0 ≤ n && n ≤ 100) (getKey o "current_cpu_usage_percent")
      let current_memory_usage_gb ← optIntP "current_memory_usage_gb" (fun n => 0 ≤ n)
        (getKey o "current_memory_usage_gb")
      let current_disk_usage_gb ← optIntP "current_disk_usage_gb" (fun n => 0 ≤ n)
        (getKey o "current_disk_usage_gb")
      let boot_profile ← optStr "boot_profile" (getKey o "boot_profile")
      let network_config ← optDict "network_config" (getKey o "network_config")
      let storage_config ← optDict "storage_config" (getKey o "storage_config")
      let current_job_id ← optStr "current_job_id" (getKey o "current_job_id")
      let current_job_name ← optStr "current_job_name" (getKey o "current_job_name")
      let job_count_today ← optIntP "job_count_today" (fun n => 0 ≤ n)
        (getKey o "job_count_today")
      let job_count_total ← optIntP "job_count_total" (fun n => 0 ≤ n)
        (getKey o "job_count_total")
      let created_at ← optDatetime "created_at" (getKey o "created_at")
      let last_boot_time ← optDatetime "last_boot_time" (getKey o "last_boot_time")
      let last_used ← optDatetime "last_used" (getKey o "last_used")
      let uptime_hours ← optIntP "uptime_hours" (fun n => 0 ≤ n) (getKey o "uptime_hours")
      let health_status ← optStrDefault "health_status" "Unknown" (getKey o "health_status")
      let last_health_check ← optDatetime "last_health_check" (getKey o "last_health_check")
      let error_message ← optStr "error_message" (getKey o "error_message")
      let access_url ← optStr "access_url" (getKey o "access_url")
      let ssh_endpoint ← optStr "ssh_endpoint" (getKey o "ssh_endpoint")
      let vnc_endpoint ← optStr "vnc_endpoint" (getKey o "vnc_endpoint")
      let tags ← parseTags (getKey o "tags")
      let owner ← optStr "owner" (getKey o "owner")
      .ok ⟨instance_id, name, description, platform_id, platform_name, status,
        is_active, is_available, in_use, allocated_cpu_count, allocated_memory_gb,
        allocated_disk_gb, allocated_gpu_count, current_cpu_usage_percent,
        current_memory_usage_gb, current_disk_usage_gb, boot_profile,
        network_config, storage_config, current_job_id, current_job_name,
        job_count_today, job_count_total, created_at, last_boot_time, last_used,
        uptime_hours, health_status, last_health_check, error_message, access_url,
        ssh_endpoint, vnc_endpoint, tags, owner⟩
  | _ => .error (.typeError "Instance: argument after ** must be a mapping")

/-- The outbound query parameters built by `get_instances`: the limit is
sent as `min(limit, 1000)` — there is NO lower clamp — and the offset as
`max(offset, 0)`. -/
def instancesParams (platform_id : Option String) (is_available : Option Bool)
    (limit offset : Int) : List (String × PVal) :=
  [("limit", .int (min limit 1000)), ("offset", .int (max offset 0))]
  ++ optStrParam "platform_id" platform_id
  ++ (match is_available with
      | some b => [("available", .str (if b then "true" else "false"))]
      | none => [])

/-- The `get_instances` record loop (skip on `ValidationError`). -/
def parseInstancesLoop : List JVal → Except PErr (List Instance)
  | [] => .ok []
  | j :: rest =>
      match Instance.parse j with
      | .ok i => (parseInstancesLoop rest).map (i :: ·)
      | .error (.validation _) => parseInstancesLoop rest
      | .error (.typeError m) => .error (.typeError m)

/-- `ISSClient.get_instances`: every failure is re-wrapped as
`ISSClientError("Failed to get instances: ...")`. -/
def getInstances (platform_id : Option String) (is_available : Option Bool)
    (limit offset : Int) (st : ISSState) : Except Exc (List Instance) × ISSState :=
  match issRequest "instances" (instancesParams platform_id is_available limit offset) true st with
  | (.error e, st) => (.error ⟨.issAPIException, "Failed to get instances: " ++ e.msg⟩, st)
  | (.ok data, st) =>
      match data with
      | .obj o =>
          let items : Except PErr (List JVal) :=
            match getKey o "instances" with
            | none => .ok []
            | some (.arr xs) => .ok xs
            | some _ => .error (.typeError "instances: value is not a list of mappings")
          match items with
          | .error e => (.error ⟨.issAPIException, "Failed to get instances: " ++ e.message⟩, st)
          | .ok xs =>
              match parseInstancesLoop xs with
              | .error e =>
                  (.error ⟨.issAPIException, "Failed to get instances: " ++ e.message⟩, st)
              | .ok instances => (.ok instances, st)
      | _ =>
          (.error ⟨.issAPIException,
            "Failed to get instances: response data has no attribute get"⟩, st)

/-- `ISSClient.get_instance`.  Only pydantic `ValidationError` is caught
(re-raised as `ISSClientError("Invalid instance data format: ...")`);
everything else propagates unchanged. -/
def getInstance (instanceId : String) (st : ISSState) : Except Exc Instance × ISSState :=
  match issRequest ("instances/" ++ instanceId) [] true st with
  | (.error e, st) => (.error e, st)
  | (.ok data, st) =>
      match Instance.parse data with
      | .ok i => (.ok i, st)
      | .error (.validation m) =>
          (.error ⟨.issAPIException, "Invalid instance data format: " ++ m⟩, st)
      | .error (.typeError m) => (.error ⟨.generic, m⟩, st)

/-! ## The file access client (`services/file_service.py`) -/

/-- Python substring test (`needle in hay`) on character lists. -/
def isInfixOfB (needle hay : List Char) : Bool :=
  needle.isPrefixOf hay ||
    match hay with
    | [] => false
    | _ :: t => isInfixOfB needle t

/-- Python `needle in hay` for strings. -/
def strContains (hay needle : String) : Bool :=
  isInfixOfB needle.data hay.data

/-- Python `hay.endswith(needle)`. -/
def strEndsWith (hay needle : String) : Bool :=
  needle.data.isSuffixOf hay.data

/-- Bytes downloaded from the file service, as seen through the standard
library's zip reader (`zipfile` is external library code, modelled
abstractly): either they do not form a valid zip archive
(`zipfile.BadZipFile` on open), or they decode to a list of named
entries (`namelist()` order) with their contents. -/
inductive Blob where
  | notZip (bytes : List Nat)
  | zip (bytes : List Nat) (entries : List (String × List Nat))

/-- The raw downloaded bytes (`response.read()`). -/
def Blob.bytes : Blob → List Nat
  | .notZip bs => bs
  | .zip bs _ => bs

/-- A file-service response body: text, optional JSON document
(`response.json()`), and raw content (`response.read()`). -/
structure FileBody where
  raw : String
  json : Option JVal
  content : Blob

/-- Result of one outbound file-service call. -/
inductive FileHttpResult where
  | resp (status : Nat) (body : FileBody)
  | netError (msg : String)
  | timeout

/-- What `_get_artifact_type_for_job` learns from the ISS client:
no client configured, the `get_job` call raised, or the job's type. -/
inductive JobLookup where
  | noClient
  | failed
  | ok (jt : JobType)

/-- `FileService._get_artifact_type_for_job`: the job-type to
artifact-type mapping, with "iwps" as the default for a missing client,
a failed lookup, or an unmapped type (note `Coho`, `Instance` and
`Custom` are unmapped and default to "iwps"). -/
def artifactTypeForJob : JobLookup → String
  | .noClient => "iwps"
  | .failed => "iwps"
  | .ok jt =>
      match jt with
      | .ISIM => "isim"
      | .NovaCoho => "coho"
      | .IWPS => "iwps"
      | .WorkloadJob => "workloadjob"
      | .WorkloadJobROI => "workloadjobroi"
      | _ => "iwps"

/-- State of a `FileService`: the bearer token FIXED at construction
(there is no credential provider and no refresh path in this client),
the response oracle of its transport, the call counter, and the result
of the artifact-type lookup for the job under operation. -/
structure FileState where
  bearer_token : String
  api : Nat → FileHttpResult
  apiCalls : Nat
  joblookup : JobLookup

/-- `FileService._request`: ONE transport call; 404, 401, 403 and other
>= 400 statuses are raised immediately — all as `FileServiceException`
(the classes `FileNotFoundError`, `FileAccessError` and
`FileServiceError` are aliases of it).  There is NO 401 retry and no
credential refresh: the 401 branch raises `FileAccessError` at once. -/
def fileRequest (tenant path : String) (st : FileState) : Except Exc FileBody × FileState :=
  let _ := tenant  -- selects the tenant-scoped base URL; not otherwise observable here
  let r := st.api st.apiCalls
  let st := { st with apiCalls := st.apiCalls + 1 }
  match r with
  | .netError m => (.error ⟨.fileServiceException, "Network error: " ++ m⟩, st)
  | .timeout => (.error ⟨.fileServiceException, "Request timeout"⟩, st)
  | .resp status body =>
      if status = 404 then
        (.error ⟨.fileServiceException, "File not found: " ++ path⟩, st)
      else if status = 401 then
        (.error ⟨.fileServiceException, "Authentication failed: " ++ path⟩, st)
      else if status = 403 then
        (.error ⟨.fileServiceException, "Access denied: " ++ path⟩, st)
      else if status ≥ 400 then
        (.error ⟨.fileServiceException,
          "Request failed with status " ++ toString status ++ ": " ++ body.raw⟩, st)
      else
        (.ok body, st)

/-- The `list_files` entry loop: string entries are taken as-is, dict
entries contribute their truthy `name` value (the raw value, which the
source appends without further checks), and anything else raises inside
the loop and is skipped by its `except Exception` clause. -/
def extractFileNames : List JVal → List JVal
  | [] => []
  | (.str s) :: rest => .str s :: extractFileNames rest
  | (.obj fo) :: rest =>
      let fn := (getKey fo "name").getD (.str "")
      if pyTruthy fn then fn :: extractFileNames rest else extractFileNames rest
  | _ :: rest => extractFileNames rest

/-- `FileService.list_files`.  Every failure is re-wrapped by the outer
`except Exception` clause as
`FileServiceError("Failed to list files: ...")` — including the
`FileAccessError` a 401 raises in `_request`. -/
def listFiles (tenant jobId path : String) (st : FileState) :
    Except Exc (List JVal) × FileState :=
  let artifactType := artifactTypeForJob st.joblookup
  let isWorkload := artifactType = "workloadjob" || artifactType = "workloadjobroi"
  let basePath0 := "fs/files/" ++ jobId ++ "/" ++ artifactType ++ "/artifacts/out"
  let basePath0 := if !path.isEmpty then basePath0 ++ "/" ++ stripChar '/' path else basePath0
  let basePath := if isWorkload then "fs/files/" ++ jobId ++ "/logs" else basePath0
  match fileRequest tenant basePath st with
  | (.error e, st) =>
      (.error ⟨.fileServiceException, "Failed to list files: " ++ e.msg⟩, st)
  | (.ok body, st) =>
      match body.json with
      | none =>
          (.error ⟨.fileServiceException,
            "Failed to list files: response body is not valid JSON"⟩, st)
      | some (.obj o) =>
          match getKey o (if isWorkload then "children" else "files") with
          | none => (.ok [], st)
          | some (.arr xs) => (.ok (extractFileNames xs), st)
          | some _ =>
              (.error ⟨.fileServiceException,
                "Failed to list files: value is not iterable as a list"⟩, st)
      | some _ =>
          (.error ⟨.fileServiceException,
            "Failed to list files: response data has no attribute get"⟩, st)

/-- `FileService.download_file`.  For the workload-job artifact
category, the path must mention "simics" or "serialconsole" to select
the archive; the archive is fetched, opened as a zip, and the FIRST
entry whose name contains or ends with the stripped path is extracted.
`zipfile.BadZipFile` raises `FileServiceError("Invalid zip file
format")`; a missing entry raises `FileNotFoundError` — and EVERY
failure of the body, both of these included, is re-wrapped by the outer
`except Exception` clause as
`FileServiceError("Failed to download file: ...")` (one single exception
class: `FileNotFoundError`, `FileAccessError` and `FileServiceError` are
all aliases of `FileServiceException`). -/
def downloadFile (tenant jobId filePath : String) (st : FileState) :
    Except Exc (List Nat) × FileState :=
  let artifactType := artifactTypeForJob st.joblookup
  let p := stripChar '/' filePath
  if artifactType = "workloadjob" || artifactType = "workloadjobroi" then
    let zipName : Option String := none
    let zipName := if strContains p "simics" then some "simics" else zipName
    let zipName := if strContains p "serialconsole" then some "serialconsole" else zipName
    match zipName with
    | none =>
        (.error ⟨.fileServiceException,
          "Failed to download file: Invalid file path " ++ filePath ++
            " for workload job " ++ jobId ++ " logs"⟩, st)
    | some z =>
        match fileRequest tenant ("fs/files/" ++ jobId ++ "/logs/all/" ++ z) st with
        | (.error e, st) =>
            (.error ⟨.fileServiceException, "Failed to download file: " ++ e.msg⟩, st)
        | (.ok body, st) =>
            match body.content with
            | .notZip _ =>
                (.error ⟨.fileServiceException,
                  "Failed to download file: Invalid zip file format: File is not a zip file"⟩, st)
            | .zip _ entries =>
                let names := entries.map (·.1)
                let target :=
                  match names.find? (fun nm => strContains nm p || strEndsWith nm p) with
                  | some t => some t
                  | none => if names.contains p then some p else none
                match target with
                | none =>
                    (.error ⟨.fileServiceException,
                      "Failed to download file: File " ++ filePath ++
                        " not found in zip archive"⟩, st)
                | some t =>
                    match List.lookup t entries with
                    | some bs => (.ok bs, st)
                    | none =>
                        (.error ⟨.fileServiceException,
                          "Failed to download file: KeyError"⟩, st)
  else
    match fileRequest tenant
        ("fs/files/" ++ jobId ++ "/" ++ artifactType ++ "/artifacts/out/" ++ p) st with
    | (.error e, st) =>
        (.error ⟨.fileServiceException, "Failed to download file: " ++ e.msg⟩, st)
    | (.ok body, st) => (.ok body.content.bytes, st)

/-! ## The response summarizer (`utils/response_summarizer.py`) -/

/-- `summarize_job`: projection of a job record onto the fixed set of
essential fields (plus the compact `WorkloadType` and `Platform`
additions), via `job_data.get(...)`. -/
def summarizeJob (jobData : List (String × JVal)) (includeDetails : Bool) :
    List (String × JVal) :=
  let get := fun k => (getKey jobData k).getD .null
  let essential := [("JobRequestID", get "JobRequestID"), ("Name", get "Name"),
    ("Type", get "Type"), ("JobRequestStatus", get "JobRequestStatus"),
    ("Queue", get "Queue"), ("TenantID", get "TenantID"),
    ("RequestedBy", get "RequestedBy"), ("RequestedOn", get "RequestedOn")]
  let essential :=
    if includeDetails then
      essential ++ [("PlatformID", get "PlatformID"), ("priority", get "priority"),
        ("owner", get "owner"), ("project", get "project"),
        ("JobResult", get "JobResult"), ("LastUpdatedOn", get "LastUpdatedOn"),
        ("LastUpdatedBy", get "LastUpdatedBy")]
    else essential
  let essential :=
    match getKey jobData "Workload" with
    | some (.obj wo) =>
        let wt := (getKey wo "WorkloadType").getD .null
        if pyTruthy wt then setKey essential "WorkloadType" wt else essential
    | _ => essential
  match getKey jobData "TargetPlatform" with
  | some (.obj po) =>
      let ps := [("PlatformID", (getKey po "PlatformID").getD .null),
        ("PlatformName", (getKey po "PlatformName").getD .null),
        ("PlatformType", (getKey po "PlatformType").getD .null),
        ("PlatformMemorySize", (getKey po "PlatformMemorySize").getD .null)]
      if ps.any (fun kv => pyTruthy kv.2) then setKey essential "Platform" (.obj ps)
      else essential
  | _ => essential

/-- Python `if max_jobs and len(summarized_jobs) >= max_jobs`. -/
def maxJobsHit (maxJobs : Option Int) (count : Int) : Bool :=
  match maxJobs with
  | some v => v ≠ 0 && v ≤ count
  | none => false

/-- The accumulation loop of `summarize_jobs_response`: items are
summarized IN ORDER; the loop `break`s (dropping the whole remaining
suffix) either before including an item whose serialized size would
exceed the character budget, or right after including the item that
reaches `max_jobs`.  `k` is the number of items already included and
`total` the characters accumulated so far. -/
def summarizeLoop (maxJobs : Option Int) (maxChars : Int) :
    List (List (String × JVal)) → Int → Int → List (List (String × JVal)) × Int
  | [], _, total => ([], total)
  | j :: rest, k, total =>
      let s := summarizeJob j false
      let len : Int := (pyRepr (.obj s)).length
      if total + len > maxChars then ([], total)
      else if maxJobsHit maxJobs (k + 1) then ([s], total + len)
      else
        let (tl, t) := summarizeLoop maxJobs maxChars rest (k + 1) (total + len)
        (s :: tl, t)

/-- The summarized-response payload (`summarize_jobs_response`
return value, with `_summary_info` inlined). -/
structure JobsSummary where
  jobs : List (List (String × JVal))
  count : Nat
  total_available : Nat
  continuation_token : JVal
  original_count : Nat
  summarized_count : Nat
  approximate_chars : Int
  truncated : Bool

/-- `summarize_jobs_response(jobs_response, max_jobs=None,
max_chars_per_response=50000)`, over a response whose `jobs` entry is
the given list of records.  `truncated` is defined as
`len(summarized_jobs) < len(jobs)`. -/
def summarizeJobsResponse (jobs : List (List (String × JVal))) (continuationToken : JVal)
    (maxJobs : Option Int) (maxChars : Int) : JobsSummary :=
  let r := summarizeLoop maxJobs maxChars jobs 0 0
  { jobs := r.1, count := r.1.length, total_available := jobs.length,
    continuation_token := continuationToken, original_count := jobs.length,
    summarized_count := r.1.length, approximate_chars := r.2,
    truncated := r.1.length < jobs.length }

/-! ### Concrete fixtures used by the closed counterexample and witness theorems -/

/-- Basic-auth credentials. -/
def basicCreds : Credentials :=
  { username := some "u", password := some "p" }

/-- OAuth2 client credentials. -/
def oauthCreds : Credentials :=
  { client_id := some "cid", client_secret := some "sec" }

/-- Settings fixture. -/
def settings0 : ISSSettings :=
  ⟨"https://iss.example", "https://auth.example/token"⟩

/-- A successful OAuth2 token response. -/
def tokenOk : HttpResult :=
  .resp 200 ⟨"tok-body", some (.obj [("access_token", .str "tok123")])⟩

/-- A 401 body. -/
def body401 : HttpBody := ⟨"unauthorized", none⟩

/-- An empty body. -/
def bodyEmpty : HttpBody := ⟨"", none⟩

/-- Provider state fixture: `basicCreds` cached, while the secret store
now holds DIFFERENT credentials (`u2`/`p2`) — so a genuinely fresh fetch
would be observable. -/
def authStore0 : AuthState :=
  ⟨some basicCreds, .json [("username", .str "u2"), ("password", .str "p2")], 0⟩

/-- Client-state fixture with response oracle `api`. -/
def mkState (api : Nat → HttpResult) (cred : Option Credentials) (a : AuthState) : ISSState :=
  ⟨settings0, cred, a, api, 0, fun _ => tokenOk, 0, []⟩

/-- Whether a model-construction outcome is the kind NOT caught by
`except ValidationError` (a `TypeError`-like failure). -/
def isTypeErrorResult {α : Type} : Except PErr α → Bool
  | .error (.typeError _) => true
  | _ => false

/-- A well-formed job record. -/
def goodJob1 : JVal := .obj [("Name", .str "j1"), ("Type", .str "IWPS"), ("JobRequestID", .str "a1")]

/-- Another well-formed job record. -/
def goodJob2 : JVal := .obj [("Name", .str "j2"), ("Type", .str "IWPS"), ("JobRequestID", .str "a2")]

/-- A job record missing the required `Type` field. -/
def badJobNoType : JVal := .obj [("Name", .str "j3")]

/-- A listing response with 2 well-formed records, 1 malformed record,
and a server-reported `Count` of 3. -/
def jobsData3 : JVal :=
  .obj [("Jobs", .arr [goodJob1, goodJob2, badJobNoType]), ("Count", .num 3)]

/-- Client state serving `jobsData3`. -/
def stJobs3 : ISSState :=
  mkState (fun _ => .resp 200 ⟨"", some jobsData3⟩) (some basicCreds) authStore0

/-- A job record whose status value is outside the lifecycle
enumeration. -/
def badStatusJob : JVal :=
  .obj [("Name", .str "j1"), ("Type", .str "IWPS"), ("JobRequestStatus", .str "paused")]

/-- Client state serving `badStatusJob` for a single-job fetch. -/
def stBadStatus : ISSState :=
  mkState (fun _ => .resp 200 ⟨"", some badStatusJob⟩) (some basicCreds) authStore0

/-- A trivial file-service body. -/
def fileBodyOk : FileBody := ⟨"", none, .notZip []⟩

/-- File-service state whose transport answers 401 first, then 200 —
so a retry, if one existed, would succeed. -/
def fst401 : FileState :=
  ⟨"tok", fun n => if n = 0 then .resp 401 fileBodyOk else .resp 200 fileBodyOk, 0, .noClient⟩

/-- Bytes of the zip entry used by the download scenario. -/
def zipEntryBytes : List Nat := [10, 20, 30]

/-- A response whose bytes form a zip archive containing
`simics/console.log`. -/
def zipBodySimics : FileBody :=
  ⟨"", none, .zip [80, 75] [("simics/console.log", zipEntryBytes)]⟩

/-- File-service state for a workload job serving the zip archive. -/
def fstZip : FileState :=
  ⟨"tok", fun _ => .resp 200 zipBodySimics, 0, .ok .WorkloadJob⟩

/-- File-service state for a workload job whose downloaded bytes are
not a valid zip. -/
def fstBadZip : FileState :=
  ⟨"tok", fun _ => .resp 200 ⟨"", none, .notZip [1, 2]⟩, 0, .ok .WorkloadJob⟩

/-! ## Theorems -/

/-- C10: every failing invocation of `get_iss_credentials` leaves the
in-memory credentials cache unchanged — a previously cached value is
still returned by the next non-forced call, and a never-populated cache
stays empty; the cache is written only by the success path. -/
theorem getIssCredentials_cache_unchanged_on_failure (a : AuthState) (force : Bool)
    (e : Exc) (h : (getIssCredentials a force).1 = .error e) :
    (getIssCredentials a force).2.cached = a.cached ∧
    (∀ c, a.cached = some c →
      (getIssCredentials (getIssCredentials a force).2 false).1 = .ok c) := by
  rcases a with ⟨cached, store, n⟩
  have hbase : (getIssCredentials ⟨cached, store, n⟩ force).2.cached = cached := by
    rcases cached with _ | c <;> rcases force <;>
      simp only [getIssCredentials] at h ⊢ <;>
      rcases store with m | m | d <;> simp only at h ⊢ <;>
      (split at h <;>
        first
          | rfl
          | (rcases hb : buildCredentials d with e' | creds <;> simp_all <;>
              split <;> rfl))
  refine ⟨hbase, ?_⟩
  intro c hc
  have h2 : (getIssCredentials ⟨cached, store, n⟩ force).2.cached = some c := by
    simp only at hc
    rw [hbase]; exact hc
  rcases hr : (getIssCredentials ⟨cached, store, n⟩ force).2 with ⟨cached', store', n'⟩
  rw [hr] at h2
  simp only at h2
  subst h2
  simp [getIssCredentials]

/-- C10 witness: an unreachable secret store fails the call and leaves
the (empty) cache empty. -/
theorem getIssCredentials_cache_unchanged_on_failure_witness :
    (getIssCredentials ⟨none, .unreachable "boom", 0⟩ false).2.cached = none :=
  (getIssCredentials_cache_unchanged_on_failure ⟨none, .unreachable "boom", 0⟩ false
    ⟨.authenticationException, "Credential retrieval failed: boom"⟩ rfl).1

/-- C7 counterexample: constructing a `Credentials` value with NEITHER
pair succeeds (the model has no validator, so there is no
construction-time validation failure), and even the credential provider
can produce and cache a `Credentials` value with no authentication
method populated: a secret whose `username`/`password` KEYS are present
with null values passes the provider's key-presence check. -/
theorem credentials_construction_counterexample :
    Credentials.construct none none none none none none none =
      .ok ⟨none, none, none, none, none, none, none⟩ ∧
    hasAuthMethod ⟨none, none, none, none, none, none, none⟩ = false ∧
    (getIssCredentials ⟨none, .json [("username", .null), ("password", .null)], 0⟩ false).1 =
      .ok ⟨none, none, none, none, none, none, none⟩ := by
  exact ⟨rfl, rfl, rfl⟩

/-- C7 (amended): the at-least-one-method requirement is enforced by the
credential provider at fetch time, by KEY PRESENCE in the parsed secret
(`AuthenticationError` when neither key pair is present, and nothing is
cached); the `Credentials` constructor itself performs no validation and
always succeeds, and a secret whose keys are present with null values
yields a `Credentials` value with no method populated. -/
theorem credentials_validation_amended (d : List (String × JVal)) (n : Nat) (force : Bool)
    (h1 : ¬((List.lookup "username" d).isSome ∧ (List.lookup "password" d).isSome))
    (h2 : ¬((List.lookup "client_id" d).isSome ∧ (List.lookup "client_secret" d).isSome)) :
    (getIssCredentials ⟨none, .json d, n⟩ force).1 =
      .error ⟨.authenticationException,
        "Credential retrieval failed: Secret must contain either (username, password) or (client_id, client_secret)"⟩ ∧
    (getIssCredentials ⟨none, .json d, n⟩ force).2.cached = none ∧
    (∀ u p ci cs ak tk ex : Option String,
      Credentials.construct u p ci cs ak tk ex = .ok ⟨u, p, ci, cs, ak, tk, ex⟩) := by
  have hu : ((List.lookup "username" d).isSome && (List.lookup "password" d).isSome) = false := by
    rcases h : (List.lookup "username" d).isSome <;>
      rcases h' : (List.lookup "password" d).isSome <;> simp_all
  have ho : ((List.lookup "client_id" d).isSome && (List.lookup "client_secret" d).isSome) = false := by
    rcases h : (List.lookup "client_id" d).isSome <;>
      rcases h' : (List.lookup "client_secret" d).isSome <;> simp_all
  refine ⟨?_, ?_, fun _ _ _ _ _ _ _ => rfl⟩ <;>
    rcases force <;> simp [getIssCredentials, hu, ho]

/-- C7 amended witness: the empty secret object. -/
theorem credentials_validation_amended_witness :
    (getIssCredentials ⟨none, .json [], 0⟩ false).2.cached = none :=
  (credentials_validation_amended [] 0 false (by simp) (by simp)).2.1

/-- The summarizer loop only ever emits a prefix of the projected
input, in input order. -/
theorem summarizeLoop_isPrefix (maxJobs : Option Int) (maxChars : Int) :
    ∀ (js : List (List (String × JVal))) (k total : Int),
      (summarizeLoop maxJobs maxChars js k total).1 <+:
        js.map (fun j => summarizeJob j false) := by
  intro js
  induction js with
  | nil => intro k total; simp [summarizeLoop]
  | cons j rest ih =>
      intro k total
      simp only [summarizeLoop, List.map]
      split
      · exact List.nil_prefix
      · split
        · exact ⟨List.map (fun j => summarizeJob j false) rest, rfl⟩
        · obtain ⟨t, ht⟩ := ih (k + 1) (total + (pyRepr (.obj (summarizeJob j false))).length)
          exact ⟨t, by simp [← ht]⟩

/-- C5: `summarize_jobs_response` never reorders input items — the
returned list is always a prefix of the projected input, so truncation
only drops a contiguous suffix — and the `truncated` flag is true
exactly when the returned item count is strictly less than the input
item count. -/
theorem summarizeJobsResponse_order_and_truncation
    (jobs : List (List (String × JVal))) (tok : JVal)
    (maxJobs : Option Int) (maxChars : Int) :
    (summarizeJobsResponse jobs tok maxJobs maxChars).jobs <+:
      jobs.map (fun j => summarizeJob j false) ∧
    ((summarizeJobsResponse jobs tok maxJobs maxChars).truncated = true ↔
      (summarizeJobsResponse jobs tok maxJobs maxChars).jobs.length < jobs.length) := by
  constructor
  · exact summarizeLoop_isPrefix maxJobs maxChars jobs 0 0
  · simp [summarizeJobsResponse]

/-- C4 counterexample: the jobs listing does clamp into [1, 100]
(0 is sent as 1, 10000 as 100), but the instances listing does NOT —
it sends `min(limit, 1000)`: an input of 0 is sent as 0 (not 1) and an
input of 10000 is sent as 1000 (not 100). -/
theorem pagination_clamp_counterexample :
    List.lookup "Limit" (jobsParams { limit := 0 }) = some (.int 1) ∧
    List.lookup "Limit" (jobsParams { limit := 10000 }) = some (.int 100) ∧
    List.lookup "limit" (instancesParams none none 0 0) = some (.int 0) ∧
    List.lookup "limit" (instancesParams none none 10000 0) = some (.int 1000) ∧
    ¬((1 : Int) ≤ 0 ∧ (0 : Int) ≤ 100 ∧ (1000 : Int) ≤ 100) := by
  exact ⟨rfl, rfl, rfl, rfl, by decide⟩

/-- C4 (amended): the jobs listing clamps the outbound `Limit` into
[1, 100] (`min(max(limit, 1), 100)`); the instances listing clamps only
the upper bound, sending `min(limit, 1000)` with no lower clamp, and
sends `max(offset, 0)` for the offset. -/
theorem pagination_limit_amended (limit offset : Int) (a : JobsArgs)
    (pid : Option String) (av : Option Bool) :
    List.lookup "Limit" (jobsParams { a with limit := limit }) =
      some (.int (min (max limit 1) 100)) ∧
    1 ≤ min (max limit 1) 100 ∧ min (max limit 1) 100 ≤ 100 ∧
    List.lookup "limit" (instancesParams pid av limit offset) =
      some (.int (min limit 1000)) ∧
    min limit 1000 ≤ 1000 ∧
    List.lookup "offset" (instancesParams pid av limit offset) =
      some (.int (max offset 0)) := by
  refine ⟨rfl, ?_, min_le_right _ _, rfl, min_le_right _ _, rfl⟩
  exact le_min (le_max_right _ _) (by norm_num)

/-- `_get_credentials` never touches the transport counter. -/
theorem clientGetCredentials_apiCalls (st : ISSState) :
    (clientGetCredentials st).2.apiCalls = st.apiCalls := by
  unfold clientGetCredentials
  rcases st.credentials with _ | c
  · rcases h : getIssCredentials st.auth false with ⟨r, a⟩
    rcases r <;> simp
  · simp

/-- `_get_oauth_token` never touches the transport counter. -/
theorem getOauthToken_apiCalls (st : ISSState) :
    (getOauthToken st).2.apiCalls = st.apiCalls := by
  unfold getOauthToken
  dsimp only
  rcases h : st.tokenApi st.tokenCalls with ⟨status, body⟩ | m | _ <;>
    simp only [h] <;> (try split) <;> (try split) <;> (try split) <;> rfl

/-- One attempt of `_request` makes at most one transport call. -/
theorem requestAttempt_apiCalls_le (e : String) (p : List (String × PVal)) (st : ISSState) :
    (requestAttempt e p st).2.apiCalls ≤ st.apiCalls + 1 := by
  unfold requestAttempt
  rcases hcc : clientGetCredentials st with ⟨r, st1⟩
  have e1 : st1.apiCalls = st.apiCalls := by
    have h := clientGetCredentials_apiCalls st
    rw [hcc] at h
    exact h
  rcases r with e' | c
  · simpa using le_of_eq e1 |>.trans (Nat.le_succ _)
  · dsimp only
    rcases hap : authPath c with _ | _ | _ <;> dsimp only
    · rcases hot : getOauthToken st1 with ⟨r2, st2⟩
      have e2 : st2.apiCalls = st1.apiCalls := by
        have h := getOauthToken_apiCalls st1
        rw [hot] at h
        exact h
      rcases r2 with e' | tok <;> dsimp only
      · simpa using le_of_eq (e2.trans e1) |>.trans (Nat.le_succ _)
      · rcases h : st2.api st2.apiCalls with ⟨status, body⟩ | m | _ <;>
          simp only [h] <;> (try split) <;> (try split) <;> (try split) <;>
          (try split) <;> (try split) <;> simp [e1, e2]
    · rcases h : st1.api st1.apiCalls with ⟨status, body⟩ | m | _ <;>
        simp only [h] <;> (try split) <;> (try split) <;> (try split) <;>
        (try split) <;> (try split) <;> simp [e1]
    · simpa using le_of_eq e1 |>.trans (Nat.le_succ _)

/-- `_request` makes at most two transport calls. -/
theorem issRequest_apiCalls_le (e : String) (p : List (String × PVal)) (retry : Bool)
    (st : ISSState) : (issRequest e p retry st).2.apiCalls ≤ st.apiCalls + 2 := by
  unfold issRequest
  rcases h1 : requestAttempt e p st with ⟨r1, st1⟩
  have b1 : st1.apiCalls ≤ st.apiCalls + 1 := by
    have h := requestAttempt_apiCalls_le e p st
    rw [h1] at h
    exact h
  rcases r1 with d | _ | e'
  · simpa using b1.trans (by omega)
  · dsimp only
    rcases retry
    · simpa using b1.trans (by omega)
    · rcases h2 : requestAttempt e p { st1 with credentials := none } with ⟨r2, st2⟩
      have b2 : st2.apiCalls ≤ st1.apiCalls + 1 := by
        have h := requestAttempt_apiCalls_le e p { st1 with credentials := none }
        rw [h2] at h
        simpa using h
      rcases r2 with d | _ | e' <;> simp <;> omega
  · simpa using b1.trans (by omega)

/-- C1 counterexample: with the provider cache populated (`basicCreds`)
while the secret store holds DIFFERENT credentials (`u2`/`p2`), a
401-then-401 run performs the retry (two transport calls, second 401
surfaced as `AuthenticationError` by the request layer) but NO fresh
`Credentials` fetch ever happens: the store-fetch counter stays 0 and
both attempts use the very same cached `Credentials` value — the
`self._credentials = None` reset only re-reads the provider's cache
(`get_iss_credentials()` without `force_refresh`). -/
theorem retry401_counterexample :
    (issRequest "jobs" [] true
        (mkState (fun _ => .resp 401 body401) (some basicCreds) authStore0)).1 =
      .error ⟨.authenticationException, "Authentication failed after retry"⟩ ∧
    (issRequest "jobs" [] true
        (mkState (fun _ => .resp 401 body401) (some basicCreds) authStore0)).2.apiCalls = 2 ∧
    (issRequest "jobs" [] true
        (mkState (fun _ => .resp 401 body401) (some basicCreds) authStore0)).2.auth.storeFetches = 0 ∧
    (issRequest "jobs" [] true
        (mkState (fun _ => .resp 401 body401) (some basicCreds) authStore0)).2.calls.map
        (fun tc => tc.creds) = [basicCreds, basicCreds] :=
  ⟨rfl, rfl, rfl, rfl⟩

/-- C1 (amended): on a first 401 exactly one retry is performed, after
clearing the client's credential reference and re-obtaining credentials
from the provider — which serves its cache, so the retry uses the SAME
`Credentials` value and no fresh secret-store fetch occurs; in the
OAuth2 path a fresh token exchange IS performed for the retry (two token
calls).  A second 401 raises `AuthenticationError` from the request
layer (`get_jobs` re-wraps it as `ISSClientError`), and the transport is
called at most twice per `_request` invocation. -/
theorem retry401_amended (settings : ISSSettings) (c c' : Credentials)
    (store : SecretFetch) (m : Nat) (api tokenApi : Nat → HttpResult)
    (e : String) (p : List (String × PVal)) (b1 b2 : HttpBody)
    (hpath : authPath c = .basic) (hpath' : authPath c' = .oauth)
    (h0 : api 0 = .resp 401 b1) (h1 : api 1 = .resp 401 b2)
    (htok : ∀ i, tokenApi i = tokenOk) :
    (issRequest e p true ⟨settings, some c, ⟨some c, store, m⟩, api, 0, tokenApi, 0, []⟩ =
      (.error ⟨.authenticationException, "Authentication failed after retry"⟩,
       ⟨settings, some c, ⟨some c, store, m⟩, api, 2, tokenApi, 0, [⟨e, p, c⟩, ⟨e, p, c⟩]⟩)) ∧
    (issRequest e p true ⟨settings, some c', ⟨some c', store, m⟩, api, 0, tokenApi, 0, []⟩ =
      (.error ⟨.authenticationException, "Authentication failed after retry"⟩,
       ⟨settings, some c', ⟨some c', store, m⟩, api, 2, tokenApi, 2, [⟨e, p, c'⟩, ⟨e, p, c'⟩]⟩)) ∧
    ((getJobs { } ⟨settings, some c, ⟨some c, store, m⟩, api, 0, tokenApi, 0, []⟩).1 =
      .error ⟨.issAPIException, "Failed to get jobs: Authentication failed after retry"⟩) ∧
    (∀ (st : ISSState) (retry : Bool) (e' : String) (p' : List (String × PVal)),
      (issRequest e' p' retry st).2.apiCalls ≤ st.apiCalls + 2) := by
  have hbasic : issRequest e p true
      ⟨settings, some c, ⟨some c, store, m⟩, api, 0, tokenApi, 0, []⟩ =
      (.error ⟨.authenticationException, "Authentication failed after retry"⟩,
       ⟨settings, some c, ⟨some c, store, m⟩, api, 2, tokenApi, 0, [⟨e, p, c⟩, ⟨e, p, c⟩]⟩) := by
    simp [issRequest, requestAttempt, clientGetCredentials, getIssCredentials, hpath, h0, h1]
  have hoauth : issRequest e p true
      ⟨settings, some c', ⟨some c', store, m⟩, api, 0, tokenApi, 0, []⟩ =
      (.error ⟨.authenticationException, "Authentication failed after retry"⟩,
       ⟨settings, some c', ⟨some c', store, m⟩, api, 2, tokenApi, 2, [⟨e, p, c'⟩, ⟨e, p, c'⟩]⟩) := by
    simp [issRequest, requestAttempt, clientGetCredentials, getIssCredentials, getOauthToken,
      hpath', h0, h1, htok, tokenOk, getKey, pyTruthy,
      show "tok123".isEmpty = false from rfl]
  have hjobs : issRequest "jobs" (jobsParams { }) true
      ⟨settings, some c, ⟨some c, store, m⟩, api, 0, tokenApi, 0, []⟩ =
      (.error ⟨.authenticationException, "Authentication failed after retry"⟩,
       ⟨settings, some c, ⟨some c, store, m⟩, api, 2, tokenApi, 0,
        [⟨"jobs", jobsParams { }, c⟩, ⟨"jobs", jobsParams { }, c⟩]⟩) := by
    simp [issRequest, requestAttempt, clientGetCredentials, getIssCredentials, hpath, h0, h1]
  refine ⟨hbasic, hoauth, ?_, fun st retry e' p' => issRequest_apiCalls_le e' p' retry st⟩
  simp [getJobs, hjobs]

/-- C1 amended witness: the fixture run. -/
theorem retry401_amended_witness :
    (issRequest "f" [] true
        ⟨settings0, some basicCreds, ⟨some basicCreds, authStore0.store, 0⟩,
         fun _ => .resp 401 body401, 0, fun _ => tokenOk, 0, []⟩).2.apiCalls = 2 :=
  congrArg (fun r => r.2.apiCalls)
    (retry401_amended settings0 basicCreds oauthCreds authStore0.store 0
      (fun _ => .resp 401 body401) (fun _ => tokenOk) "f" [] body401 body401
      rfl rfl rfl rfl (fun _ => rfl)).1

/-- C2 counterexample: a 429 reaches the caller of `get_jobs` as
`ISSClientError` (= `ISSAPIException`), NOT as `RateLimitError` — the
listing operation catches every exception and re-wraps it; and the 404
error and the generic >= 400 error carry the SAME exception class
(`ISSNotFoundError` and `ISSClientError` are both aliases of
`ISSAPIException`), so the "three distinct error kinds" do not exist. -/
theorem error_kinds_counterexample :
    (getJobs { } (mkState (fun _ => .resp 429 bodyEmpty) (some basicCreds) authStore0)).1 =
      .error ⟨.issAPIException, "Failed to get jobs: Rate limit exceeded"⟩ ∧
    ExcClass.issAPIException ≠ ExcClass.rateLimitException ∧
    (issRequest "jobs" [] true
        (mkState (fun _ => .resp 404 bodyEmpty) (some basicCreds) authStore0)).1 =
      .error ⟨.issAPIException, "Resource not found: jobs"⟩ ∧
    (issRequest "jobs" [] true
        (mkState (fun _ => .resp 500 ⟨"boom", none⟩) (some basicCreds) authStore0)).1 =
      .error ⟨.issAPIException, "Request failed with status 500: boom"⟩ :=
  ⟨rfl, by decide, rfl, rfl⟩

/-- C2 (amended): at the request layer, 404 raises
`ISSNotFoundError("Resource not found: ...")` and any other status
>= 400 (other than 401/429) raises `ISSClientError` — but these are the
SAME exception class (`ISSAPIException`), distinguished only by message;
429 raises the distinct `RateLimitError`.  These kinds reach the caller
unchanged only through `get_job` and `get_instance` (which catch only
pydantic `ValidationError`); `get_jobs`, `get_platforms`,
`get_instances` and `get_platform` catch every exception and re-raise
`ISSClientError` with a contextual message, so there the rate-limit kind
is lost. -/
theorem status_mapping_amended (settings : ISSSettings) (c : Credentials)
    (a : AuthState) (tokenApi : Nat → HttpResult) (body : HttpBody)
    (e : String) (p : List (String × PVal)) (jobId instId platformId : String)
    (hpath : authPath c = .basic) :
    (issRequest e p true ⟨settings, some c, a, fun _ => .resp 404 body, 0, tokenApi, 0, []⟩).1 =
      .error ⟨.issAPIException, "Resource not found: " ++ e⟩ ∧
    (issRequest e p true ⟨settings, some c, a, fun _ => .resp 429 body, 0, tokenApi, 0, []⟩).1 =
      .error ⟨.rateLimitException, "Rate limit exceeded"⟩ ∧
    (∀ s : Nat, s ≠ 401 → s ≠ 404 → s ≠ 429 → s ≥ 400 →
      (issRequest e p true ⟨settings, some c, a, fun _ => .resp s body, 0, tokenApi, 0, []⟩).1 =
        .error ⟨.issAPIException,
          "Request failed with status " ++ toString s ++ ": " ++ body.raw⟩) ∧
    (getJob jobId ⟨settings, some c, a, fun _ => .resp 404 body, 0, tokenApi, 0, []⟩).1 =
      .error ⟨.issAPIException, "Resource not found: " ++ ("jobs/job/" ++ jobId)⟩ ∧
    (getInstance instId ⟨settings, some c, a, fun _ => .resp 429 body, 0, tokenApi, 0, []⟩).1 =
      .error ⟨.rateLimitException, "Rate limit exceeded"⟩ ∧
    (getJobs { } ⟨settings, some c, a, fun _ => .resp 429 body, 0, tokenApi, 0, []⟩).1 =
      .error ⟨.issAPIException, "Failed to get jobs: Rate limit exceeded"⟩ ∧
    (getPlatforms [] ⟨settings, some c, a, fun _ => .resp 404 body, 0, tokenApi, 0, []⟩).1 =
      .error ⟨.issAPIException, "Failed to get platforms: Resource not found: platforms"⟩ ∧
    (getInstances none none 100 0
        ⟨settings, some c, a, fun _ => .resp 404 body, 0, tokenApi, 0, []⟩).1 =
      .error ⟨.issAPIException, "Failed to get instances: Resource not found: instances"⟩ ∧
    (getPlatform platformId ⟨settings, some c, a, fun _ => .resp 429 body, 0, tokenApi, 0, []⟩).1 =
      .error ⟨.issAPIException,
        "Failed to get platform " ++ platformId ++ ": " ++ "Rate limit exceeded"⟩ := by
  have k404 : ∀ (e' : String) (p' : List (String × PVal)),
      issRequest e' p' true ⟨settings, some c, a, fun _ => .resp 404 body, 0, tokenApi, 0, []⟩ =
      (.error ⟨.issAPIException, "Resource not found: " ++ e'⟩,
       ⟨settings, some c, a, fun _ => .resp 404 body, 1, tokenApi, 0, [⟨e', p', c⟩]⟩) := by
    intro e' p'
    simp [issRequest, requestAttempt, clientGetCredentials, hpath]
  have k429 : ∀ (e' : String) (p' : List (String × PVal)),
      issRequest e' p' true ⟨settings, some c, a, fun _ => .resp 429 body, 0, tokenApi, 0, []⟩ =
      (.error ⟨.rateLimitException, "Rate limit exceeded"⟩,
       ⟨settings, some c, a, fun _ => .resp 429 body, 1, tokenApi, 0, [⟨e', p', c⟩]⟩) := by
    intro e' p'
    simp [issRequest, requestAttempt, clientGetCredentials, hpath]
  refine ⟨by simp [k404 e p], by simp [k429 e p], ?_, by simp [getJob, k404],
    by simp [getInstance, k429], by simp [getJobs, k429], by simp [getPlatforms, k404],
    by simp [getInstances, k404], by simp [getPlatform, k429]⟩
  intro s hs401 hs404 hs429 hs400
  simp only [issRequest, requestAttempt, clientGetCredentials, hpath]
  rw [if_neg hs401, if_neg hs404, if_neg hs429, if_pos hs400]

/-- C2 amended witness: the 404 propagation through `get_job` at the
fixtures. -/
theorem status_mapping_amended_witness :
    (getJob "j1" ⟨settings0, some basicCreds, authStore0,
        fun _ => .resp 404 bodyEmpty, 0, fun _ => tokenOk, 0, []⟩).1 =
      .error ⟨.issAPIException, "Resource not found: jobs/job/j1"⟩ :=
  (status_mapping_amended settings0 basicCreds authStore0 (fun _ => tokenOk) bodyEmpty
    "e" [] "j1" "i1" "p1" rfl).2.2.2.1

/-- The jobs record loop skips exactly the `ValidationError` records:
when no record fails with a non-`ValidationError` exception, the loop
returns the well-formed records, in input order. -/
theorem parseJobsLoop_filterMap (xs : List JVal)
    (h : ∀ j ∈ xs, isTypeErrorResult (processJob j) = false) :
    parseJobsLoop xs = .ok (xs.filterMap (fun j => (processJob j).toOption)) := by
  induction xs with
  | nil => rfl
  | cons j rest ih =>
      have hj := h j (List.mem_cons_self j rest)
      have hrest : ∀ x ∈ rest, isTypeErrorResult (processJob x) = false :=
        fun x hx => h x (List.mem_cons_of_mem _ hx)
      simp only [parseJobsLoop, List.filterMap_cons]
      rcases hpj : processJob j with e | job
      · rcases e with m | m
        · rw [ih hrest]; simp [hpj, Except.toOption]
        · rw [hpj] at hj; simp [isTypeErrorResult] at hj
      · rw [ih hrest]; simp [hpj, Except.toOption, Except.map]

/-- C3 counterexample: the concrete scenario — a listing response with 2
well-formed records, 1 record missing `Type`, and server `Count` 3 —
does return exactly the 2 well-formed records, but the returned `count`
is 3 (the raw server-reported count), not 2: `get_jobs` computes
`data.get("Count", len(jobs))`, preferring the server count whenever it
is present. -/
theorem listing_count_counterexample :
    ((getJobs { } stJobs3).1.toOption.map (fun r => (r.jobs.length, r.count))) =
      some (2, 3) ∧
    (3 : Int) ≠ 2 :=
  ⟨rfl, by decide⟩

/-- C3 (amended): a record failing pydantic validation is skipped while
every well-formed record is returned, in input order; the returned
`count` equals the SERVER-REPORTED `Count` when that field is present,
and falls back to the number of well-formed parsed records only when
`Count` is absent. -/
theorem getJobs_count_amended (settings : ISSSettings) (c : Credentials) (a : AuthState)
    (tokenApi : Nat → HttpResult) (raw : String) (o o₂ : List (String × JVal))
    (items items₂ : List JVal) (cnt : Int)
    (hpath : authPath c = .basic)
    (hjobs : getKey o "Jobs" = some (.arr items))
    (hcount : getKey o "Count" = some (.num cnt))
    (htok : getKey o "ContinuationToken" = none)
    (hclean : ∀ j ∈ items, isTypeErrorResult (processJob j) = false)
    (hjobs₂ : getKey o₂ "Jobs" = some (.arr items₂))
    (hcount₂ : getKey o₂ "Count" = none)
    (htok₂ : getKey o₂ "ContinuationToken" = none)
    (hclean₂ : ∀ j ∈ items₂, isTypeErrorResult (processJob j) = false) :
    (getJobs { } ⟨settings, some c, a,
        fun _ => .resp 200 ⟨raw, some (.obj o)⟩, 0, tokenApi, 0, []⟩).1 =
      .ok ⟨items.filterMap (fun j => (processJob j).toOption), cnt, none⟩ ∧
    (getJobs { } ⟨settings, some c, a,
        fun _ => .resp 200 ⟨raw, some (.obj o₂)⟩, 0, tokenApi, 0, []⟩).1 =
      .ok ⟨items₂.filterMap (fun j => (processJob j).toOption),
           (items₂.filterMap (fun j => (processJob j).toOption)).length, none⟩ := by
  have k : ∀ (d : JVal), issRequest "jobs" (jobsParams { }) true
      ⟨settings, some c, a, fun _ => .resp 200 ⟨raw, some d⟩, 0, tokenApi, 0, []⟩ =
      (.ok d, ⟨settings, some c, a, fun _ => .resp 200 ⟨raw, some d⟩, 1, tokenApi, 0,
        [⟨"jobs", jobsParams { }, c⟩]⟩) := by
    intro d
    simp [issRequest, requestAttempt, clientGetCredentials, hpath]
  constructor
  · simp [getJobs, k (.obj o), hjobs, hcount, htok, coerceInt,
      parseJobsLoop_filterMap items hclean, optStr]
  · simp [getJobs, k (.obj o₂), hjobs₂, hcount₂, htok₂, coerceInt,
      parseJobsLoop_filterMap items₂ hclean₂, optStr]

/-- C3 amended witness: the fixture run (2 well-formed records parsed,
server count 3 returned; fallback case with a single record). -/
theorem getJobs_count_amended_witness :
    (getJobs { } stJobs3).1 =
      .ok ⟨[goodJob1, goodJob2, badJobNoType].filterMap (fun j => (processJob j).toOption),
           3, none⟩ :=
  (getJobs_count_amended settings0 basicCreds authStore0 (fun _ => tokenOk) ""
    [("Jobs", .arr [goodJob1, goodJob2, badJobNoType]), ("Count", .num 3)]
    [("Jobs", .arr [goodJob1])]
    [goodJob1, goodJob2, badJobNoType] [goodJob1] 3
    rfl rfl rfl rfl (by decide) rfl rfl rfl (by decide)).1

/-- Success of `JobStatus` enum lookup is exact membership in the twelve
admissible wire values (nothing is coerced). -/
theorem jobStatus_fromValue_iff (s : String) :
    (JobStatus.fromValue s).isSome = true ↔ s ∈ jobStatusStrings := by
  rw [JobStatus.fromValue, jobStatusStrings]
  constructor
  · intro h
    rcases hf : List.find? (fun p => p.1 = s) jobStatusTable with _ | x
    · rw [hf] at h; simp at h
    · have hx := List.find?_some hf
      have hmem := List.mem_of_find?_eq_some hf
      simp only [decide_eq_true_eq] at hx
      subst hx
      exact List.mem_map_of_mem _ hmem
  · intro h
    rcases List.mem_map.mp h with ⟨x, hx, hx1⟩
    rcases hf : List.find? (fun p => p.1 = s) jobStatusTable with _ | y
    · have hnone := List.find?_eq_none.mp hf x hx
      simp [hx1] at hnone
    · simp [hf]

/-- Binding an `Except` error short-circuits. -/
theorem exceptBind_error {ε α β : Type} (e : ε) (f : α → Except ε β) :
    ((Except.error e : Except ε α) >>= f) = Except.error e := rfl

/-- Binding an `Except` success applies the continuation. -/
theorem exceptBind_ok {ε α β : Type} (v : α) (f : α → Except ε β) :
    ((Except.ok v : Except ε α) >>= f) = f v := rfl

/-- A `JobDetail` parse cannot succeed when the status field holds a
string outside the enumeration: the record is rejected, not coerced. -/
theorem jobDetail_parse_rejects_unknown_status (o : List (String × JVal)) (s : String)
    (hs : getField o "JobRequestStatus" "status" = some (.str s))
    (henum : JobStatus.fromValue s = none) :
    ∀ j : JobDetail, JobDetail.parse (.obj o) ≠ .ok j := by
  intro j h
  simp only [JobDetail.parse] at h
  rw [hs] at h
  simp only [reqStatus, henum] at h
  generalize optStr "JobRequestID" (getField o "JobRequestID" "job_id") = r1 at h
  generalize reqStrLen "Name" 1 255 (getField o "Name" "name") = r2 at h
  generalize optStrMax "description" 1000 (getKey o "description") = r3 at h
  generalize reqJobType "Type" (getField o "Type" "job_type") = r4 at h
  generalize optStr "PlatformID" (getField o "PlatformID" "platform_id") = r5 at h
  generalize optStr "instance_id" (getKey o "instance_id") = r6 at h
  rcases r1 with e | v1
  · simp only [exceptBind_error] at h; exact Except.noConfusion h
  simp only [exceptBind_ok] at h
  rcases r2 with e | v2
  · simp only [exceptBind_error] at h; exact Except.noConfusion h
  simp only [exceptBind_ok] at h
  rcases r3 with e | v3
  · simp only [exceptBind_error] at h; exact Except.noConfusion h
  simp only [exceptBind_ok] at h
  rcases r4 with e | v4
  · simp only [exceptBind_error] at h; exact Except.noConfusion h
  simp only [exceptBind_ok] at h
  rcases r5 with e | v5
  · simp only [exceptBind_error] at h; exact Except.noConfusion h
  simp only [exceptBind_ok] at h
  rcases r6 with e | v6
  · simp only [exceptBind_error] at h; exact Except.noConfusion h
  simp only [exceptBind_ok] at h
  simp only [exceptBind_error] at h
  exact Except.noConfusion h

/-- C6 counterexample: a single-job fetch whose record carries the
out-of-enumeration status "paused" fails — but the failure reaches the
caller as `ISSClientError` (= `ISSAPIException`, message "Invalid job
data format: ..."), NOT as the repository's `ValidationError`
(`ValidationException`) class: `get_job` catches the pydantic error and
re-raises `ISSClientError`. -/
theorem unknown_status_error_kind_counterexample :
    (getJob "j1" stBadStatus).1 =
      .error ⟨.issAPIException,
        "Invalid job data format: JobRequestStatus: value is not a valid enumeration member"⟩ ∧
    ExcClass.issAPIException ≠ ExcClass.validationException :=
  ⟨rfl, by decide⟩

/-- C6 (amended): a status value outside the fixed lifecycle enumeration
is rejected at parse time (enum lookup succeeds exactly on the twelve
wire values, and a record with an unknown status string can never parse),
and the parse failure is fatal to the `get_job` call — surfaced as
`ISSClientError("Invalid job data format: ...")`, not as the
`ValidationError` class. -/
theorem unknown_status_amended (settings : ISSSettings) (c : Credentials) (a : AuthState)
    (tokenApi : Nat → HttpResult) (raw : String) (d : JVal) (m jobId : String)
    (hpath : authPath c = .basic)
    (hparse : JobDetail.parse d = .error (.validation m)) :
    (∀ s : String, (JobStatus.fromValue s).isSome = true ↔ s ∈ jobStatusStrings) ∧
    (∀ (o : List (String × JVal)) (s : String),
      getField o "JobRequestStatus" "status" = some (.str s) →
      JobStatus.fromValue s = none →
      ∀ j : JobDetail, JobDetail.parse (.obj o) ≠ .ok j) ∧
    (getJob jobId ⟨settings, some c, a,
        fun _ => .resp 200 ⟨raw, some d⟩, 0, tokenApi, 0, []⟩).1 =
      .error ⟨.issAPIException, "Invalid job data format: " ++ m⟩ := by
  have k : issRequest ("jobs/job/" ++ jobId) [] true
      ⟨settings, some c, a, fun _ => .resp 200 ⟨raw, some d⟩, 0, tokenApi, 0, []⟩ =
      (.ok d, ⟨settings, some c, a, fun _ => .resp 200 ⟨raw, some d⟩, 1, tokenApi, 0,
        [⟨"jobs/job/" ++ jobId, [], c⟩]⟩) := by
    simp [issRequest, requestAttempt, clientGetCredentials, hpath]
  exact ⟨jobStatus_fromValue_iff,
    fun o s hs henum => jobDetail_parse_rejects_unknown_status o s hs henum,
    by simp [getJob, k, hparse]⟩

/-- C6 amended witness: the "paused" fixture. -/
theorem unknown_status_amended_witness :
    (getJob "j1" stBadStatus).1 =
      .error ⟨.issAPIException,
        "Invalid job data format: " ++ "JobRequestStatus: value is not a valid enumeration member"⟩ :=
  (unknown_status_amended settings0 basicCreds authStore0 (fun _ => tokenOk) ""
    badStatusJob "JobRequestStatus: value is not a valid enumeration member" "j1"
    rfl rfl).2.2

/-- C8 counterexample: the file service performs NO 401 retry at all.
With a transport that answers 401 and would answer 200 on a second call,
`_request` raises `FileAccessError` immediately after exactly ONE
transport call (the 200 is never consumed), and `list_files` surfaces
it re-wrapped as `FileServiceError` — no credential refresh exists in
this client (the bearer token is fixed at construction). -/
theorem file401_counterexample :
    (fileRequest "t1" "p1" fst401).1 =
      .error ⟨.fileServiceException, "Authentication failed: p1"⟩ ∧
    (fileRequest "t1" "p1" fst401).2.apiCalls = 1 ∧
    (listFiles "t1" "job1" "" fst401).1 =
      .error ⟨.fileServiceException,
        "Failed to list files: Authentication failed: fs/files/job1/iwps/artifacts/out"⟩ ∧
    (listFiles "t1" "job1" "" fst401).2.apiCalls = 1 :=
  ⟨rfl, rfl, rfl, rfl⟩

/-- C8 (amended): `FileService._request` makes exactly one transport
call per invocation and surfaces an HTTP 401 immediately as
`FileAccessError` (= `FileServiceException`) — there is no
refresh-credentials-and-retry policy in the File Access Client; the
bearer token is fixed per instance, and `list_files`/`download_file`
re-wrap the failure as `FileServiceError` with a contextual message. -/
theorem file401_amended (tok : String) (api : Nat → FileHttpResult) (n : Nat)
    (lk : JobLookup) (tenant path jobId filePath : String) (body : FileBody)
    (h : api n = .resp 401 body) :
    (fileRequest tenant path ⟨tok, api, n, lk⟩).1 =
      .error ⟨.fileServiceException, "Authentication failed: " ++ path⟩ ∧
    (fileRequest tenant path ⟨tok, api, n, lk⟩).2.apiCalls = n + 1 ∧
    (fileRequest tenant path ⟨tok, api, n, lk⟩).2.bearer_token = tok ∧
    (∀ st : FileState, (fileRequest tenant path st).2.apiCalls = st.apiCalls + 1) ∧
    (listFiles tenant jobId "" ⟨tok, api, n, .noClient⟩).1 =
      .error ⟨.fileServiceException, "Failed to list files: " ++
        ("Authentication failed: " ++
          ("fs/files/" ++ jobId ++ "/" ++ "iwps" ++ "/artifacts/out"))⟩ ∧
    (downloadFile tenant jobId filePath ⟨tok, api, n, .noClient⟩).1 =
      .error ⟨.fileServiceException, "Failed to download file: " ++
        ("Authentication failed: " ++
          ("fs/files/" ++ jobId ++ "/" ++ "iwps" ++ "/artifacts/out/" ++
            stripChar '/' filePath))⟩ := by
  have hone : ∀ st : FileState, (fileRequest tenant path st).2.apiCalls = st.apiCalls + 1 := by
    intro st
    unfold fileRequest
    rcases st.api st.apiCalls with ⟨status, b⟩ | m | _ <;>
      simp <;> (try split) <;> (try split) <;> (try split) <;> (try split) <;> simp
  refine ⟨by simp [fileRequest, h], by simp [fileRequest, h], by simp [fileRequest, h],
    hone, ?_, ?_⟩
  · simp [listFiles, artifactTypeForJob, fileRequest, h,
      show "".isEmpty = true from rfl]
  · simp [downloadFile, artifactTypeForJob, fileRequest, h]

/-- C8 amended witness: the fixture run. -/
theorem file401_amended_witness :
    (fileRequest "t1" "p1" fst401).2.apiCalls = 0 + 1 :=
  (file401_amended "tok"
    (fun n => if n = 0 then .resp 401 fileBodyOk else .resp 200 fileBodyOk) 0
    .noClient "t1" "p1" "job1" "f.log" fileBodyOk rfl).2.1

/-- C9 counterexample: the workload-job download does return exactly the
bytes of the matched zip entry, and a missing entry does fail with a
not-found message — but the no-match failure and the invalid-archive
failure carry the SAME exception class: `FileNotFoundError`,
`FileAccessError` and `FileServiceError` are all aliases of
`FileServiceException`, and the outer handler re-wraps both as
`FileServiceError("Failed to download file: ...")`, so there is no
distinct error kind for an unparseable archive. -/
theorem download_zip_error_kinds_counterexample :
    (downloadFile "t1" "job1" "simics/console.log" fstZip).1 = .ok zipEntryBytes ∧
    (downloadFile "t1" "job1" "simics/missing.log" fstZip).1 =
      .error ⟨.fileServiceException,
        "Failed to download file: File simics/missing.log not found in zip archive"⟩ ∧
    (downloadFile "t1" "job1" "simics/console.log" fstBadZip).1 =
      .error ⟨.fileServiceException,
        "Failed to download file: Invalid zip file format: File is not a zip file"⟩ ∧
    ((match (downloadFile "t1" "job1" "simics/missing.log" fstZip).1 with
      | .error e => e.cls
      | .ok _ => .generic) =
     (match (downloadFile "t1" "job1" "simics/console.log" fstBadZip).1 with
      | .error e => e.cls
      | .ok _ => .generic)) :=
  ⟨rfl, rfl, rfl, rfl⟩

/-- C9 (amended): for a workload-job artifact whose path mentions
"simics" (or "serialconsole" — otherwise the path is rejected outright),
the client fetches the archive, opens it as a zip, and returns exactly
the bytes of the FIRST entry whose name contains or ends with the
requested path; if no entry matches it fails with a not-found message,
and if the bytes are not a valid zip with an invalid-zip-format
message — but BOTH failures are the same exception class
(`FileServiceException`, re-wrapped as
`FileServiceError("Failed to download file: ...")`), not distinct
kinds. -/
theorem download_zip_amended (tok : String) (lk : JobLookup)
    (tenant jobId filePath filePathBad : String) (raw : String)
    (zbytes nb bs : List Nat) (entries entries₂ : List (String × List Nat)) (t : String)
    (hwl : artifactTypeForJob lk = "workloadjob")
    (hsim : strContains (stripChar '/' filePath) "simics" = true)
    (hser : strContains (stripChar '/' filePath) "serialconsole" = false)
    (hfind : (entries.map (fun en => en.1)).find?
        (fun nm => strContains nm (stripChar '/' filePath) ||
          strEndsWith nm (stripChar '/' filePath)) = some t)
    (hlook : List.lookup t entries = some bs)
    (hfind₂ : (entries₂.map (fun en => en.1)).find?
        (fun nm => strContains nm (stripChar '/' filePath) ||
          strEndsWith nm (stripChar '/' filePath)) = none)
    (hmem₂ : (entries₂.map (fun en => en.1)).contains (stripChar '/' filePath) = false)
    (hbad1 : strContains (stripChar '/' filePathBad) "simics" = false)
    (hbad2 : strContains (stripChar '/' filePathBad) "serialconsole" = false) :
    (downloadFile tenant jobId filePath
        ⟨tok, fun _ => .resp 200 ⟨raw, none, .zip zbytes entries⟩, 0, lk⟩).1 = .ok bs ∧
    (downloadFile tenant jobId filePath
        ⟨tok, fun _ => .resp 200 ⟨raw, none, .zip zbytes entries₂⟩, 0, lk⟩).1 =
      .error ⟨.fileServiceException,
        "Failed to download file: File " ++ filePath ++ " not found in zip archive"⟩ ∧
    (downloadFile tenant jobId filePath
        ⟨tok, fun _ => .resp 200 ⟨raw, none, .notZip nb⟩, 0, lk⟩).1 =
      .error ⟨.fileServiceException,
        "Failed to download file: Invalid zip file format: File is not a zip file"⟩ ∧
    (downloadFile tenant jobId filePathBad
        ⟨tok, fun _ => .resp 200 ⟨raw, none, .notZip nb⟩, 0, lk⟩).1 =
      .error ⟨.fileServiceException,
        "Failed to download file: Invalid file path " ++ filePathBad ++
          " for workload job " ++ jobId ++ " logs"⟩ := by
  refine ⟨?_, ?_, ?_, ?_⟩
  · simp [downloadFile, hwl, hsim, hser, fileRequest, hfind, hlook]
  · simp [downloadFile, hwl, hsim, hser, fileRequest, hfind₂]
    rw [hmem₂]
    simp
  · simp [downloadFile, hwl, hsim, hser, fileRequest]
  · simp [downloadFile, hwl, hbad1, hbad2]

/-- C9 amended witness: the `simics/console.log` fixture. -/
theorem download_zip_amended_witness :
    (downloadFile "t1" "job1" "simics/console.log" fstZip).1 = .ok zipEntryBytes :=
  (download_zip_amended "tok" (.ok .WorkloadJob) "t1" "job1" "simics/console.log"
    "other.log" "" [80, 75] [1, 2] zipEntryBytes
    [("simics/console.log", zipEntryBytes)] [("a.log", [1])] "simics/console.log"
    rfl rfl rfl rfl rfl rfl rfl rfl rfl).1

end WA
